import Mathlib

/-!
Verification of the IotTrafficSandbox water-plant simulation core.

Shallow embedding of the canonical control/physics chain of the repository:
`src/nemsh/plant/state.py`, `src/nemsh/plant/process.py` (the monolithic
`PlantProcess` that `PlantSimulator` instantiates), `src/nemsh/plant/controller.py`,
`src/nemsh/plant/simulation.py`, plus the separately cited revisions
`src/nemsh/plant/process/tank.py` (`TankProcess.step`),
`src/nemsh/plant/process/stabilizer.py` (`StabilizerProcess._update_stabilizer_mode`)
and the command handler `iot_sim.py` (`PlantController._on_control`).

All Python floats are modelled as exact rationals (`ℚ`).  The single use of
`math.sqrt` (in `PlantProcess._compute_in_pump_hydraulics`) is modelled by an
abstract parameter `sq : ℚ → ℚ`; none of the verified properties depend on the
value of the square root, so every theorem quantifies over `sq`.
Python's seeded `random.Random(seed)` is modelled as an explicit deterministic
stream `rng : ℕ → ℚ` of the successive `uniform` draws together with an index.
-/

/-- `clamp` from `src/nemsh/plant/state.py`:
`lo if x < lo else hi if x > hi else x`. -/
def clamp (x lo hi : ℚ) : ℚ :=
  if x < lo then lo else if hi < x then hi else x

/-- Python `abs(x)`: `-x if x < 0 else x` (kernel-computable form of `|x|`). -/
def absQ (x : ℚ) : ℚ :=
  if x < 0 then -x else x

/-- Python `//` (float floor division) result as an integer:
`⌊x⌋`, in kernel-computable form (Euclidean division of numerator by
denominator). -/
def floorQ (x : ℚ) : ℤ :=
  x.num / x.den

/-- Python `int(x)` applied to a float: truncation toward zero
(`Int.tdiv` truncates toward zero). -/
def truncToInt (x : ℚ) : ℤ :=
  Int.tdiv x.num x.den

theorem absQ_eq_abs (x : ℚ) : absQ x = |x| := by
  unfold absQ
  split_ifs with h
  · exact (abs_of_neg h).symm
  · exact (abs_of_nonneg (not_lt.mp h)).symm

theorem floorQ_eq_floor (x : ℚ) : floorQ x = ⌊x⌋ := by
  rw [Rat.floor_def, floorQ]

/-- `StabilizerMode = Literal["NORMAL", "BYPASS", "FAULT"]`. -/
inductive StabilizerMode where
  | NORMAL | BYPASS | FAULT
deriving DecidableEq

/-- `PumpMode = Literal["AUTO", "MANUAL"]`. -/
inductive PumpMode where
  | AUTO | MANUAL
deriving DecidableEq

/-- `PumpStateEnum = Literal["OFF", "ON", "FAULT"]`. -/
inductive PumpRunState where
  | OFF | ON | FAULT
deriving DecidableEq

/-- `FilterMode = Literal["FILTER", "BACKWASH", "IDLE"]`. -/
inductive FilterMode where
  | FILTER | BACKWASH | IDLE
deriving DecidableEq

/-- `EnvironmentState` from `state.py`. -/
structure EnvironmentState where
  ambient_temperature_c : ℚ := 20
deriving DecidableEq

/-- `StabilizerState` from `state.py`. -/
structure StabilizerState where
  vin_v : ℚ := 220
  vout_v : ℚ := 220
  mode : StabilizerMode := .NORMAL
  active_power_kw : ℚ := 0
  transformer_temp_c : ℚ := 25
deriving DecidableEq

/-- `PumpState` from `state.py`. -/
structure PumpState where
  mode : PumpMode := .AUTO
  state : PumpRunState := .OFF
  rpm_desired : ℚ := 2500
  rpm_actual : ℚ := 0
  rpm_min : ℚ := 1000
  rpm_nom : ℚ := 2500
  rpm_max : ℚ := 4000
  voltage_v : ℚ := 220
  power_kw : ℚ := 0
  pressure_bar : ℚ := 0
  flow_lpm : ℚ := 0
  motor_temp_c : ℚ := 20
  overheat_limit_c : ℚ := 105
  hard_limit_c : ℚ := 110
  overheat_seconds : ℚ := 0
deriving DecidableEq

/-- `FilterState` from `state.py`. -/
structure FilterState where
  mode : FilterMode := .FILTER
  in_pressure_bar : ℚ := 0
  out_pressure_bar : ℚ := 1/5
  delta_pressure_bar : ℚ := 0
  ntu : ℚ := 1
  ph : ℚ := 7
  wear_pct : ℚ := 0
  min_wear_after_backwash_pct : ℚ := 10
deriving DecidableEq

/-- `TankState` from `state.py`. -/
structure TankState where
  capacity_liters : ℚ := 1000
  level_liters : ℚ := 500
  min_level_pct : ℚ := 5
  low_level_pct : ℚ := 20
  max_level_pct : ℚ := 100
  in_flow_lpm : ℚ := 0
  out_flow_lpm : ℚ := 0
  level_pct : ℚ := 50
  level_rate_lps : ℚ := 0
deriving DecidableEq

/-- `PlantState` from `state.py`. -/
structure PlantState where
  time_s : ℤ := 0
  env : EnvironmentState := {}
  stabilizer : StabilizerState := {}
  in_pump : PumpState := {}
  out_pump : PumpState := {}
  filter : FilterState := {}
  tank : TankState := {}
deriving DecidableEq

/-- The default `PlantState()` built at simulation start. -/
def initPlantState : PlantState := {}

/-- `ProcessConfig` from `src/nemsh/plant/process.py` (field defaults inline). -/
structure ProcessConfig where
  normal_v_min : ℚ := 190
  normal_v_max : ℚ := 240
  bypass_v_min : ℚ := 180
  bypass_v_max : ℚ := 260
  v_nom : ℚ := 220
  in_rpm_nom : ℚ := 2500
  in_q_nom_lpm : ℚ := 120
  in_p_clean_bar : ℚ := 27/10
  in_p_nom_kw : ℚ := 3/2
  gamma_wear : ℚ := 3333/10000
  out_rpm_nom : ℚ := 2500
  out_q_nom_lpm : ℚ := 110
  out_p_clean_bar : ℚ := 3
  out_p_nom_kw : ℚ := 8/5
  rpm_tau_s : ℚ := 3/2
  raw_ntu_in : ℚ := 2
  wear_k : ℚ := 139/50000
  clean_rate_pct_per_s : ℚ := 1
  out_pressure_bar_flowing : ℚ := 1/5
  out_pressure_bar_no_flow : ℚ := 0
  backwash_flow_lpm : ℚ := 50
  motor_tau_heat_s : ℚ := 120
  motor_tau_cool_s : ℚ := 60
deriving DecidableEq

/-- `ProcessConfig()` with all defaults. -/
def defaultProcessConfig : ProcessConfig := {}

namespace PlantProcess

/-- `PlantProcess._update_stabilizer`. -/
def update_stabilizer (cfg : ProcessConfig) (s : PlantState) : PlantState :=
  let vin := s.stabilizer.vin_v
  if cfg.normal_v_min ≤ vin ∧ vin ≤ cfg.normal_v_max then
    { s with stabilizer := { s.stabilizer with mode := .NORMAL, vout_v := cfg.v_nom } }
  else if cfg.bypass_v_min ≤ vin ∧ vin ≤ cfg.bypass_v_max then
    { s with stabilizer := { s.stabilizer with mode := .BYPASS, vout_v := vin } }
  else
    { s with stabilizer := { s.stabilizer with mode := .FAULT, vout_v := 0 } }

/-- `PlantProcess._update_stabilizer_active_power`. -/
def update_stabilizer_active_power (s : PlantState) : PlantState :=
  { s with stabilizer := { s.stabilizer with
      active_power_kw := max 0 s.in_pump.power_kw + max 0 s.out_pump.power_kw } }

/-- `PlantProcess._heat_motor` (dt-aware first-order lag toward a
rpm-dependent equilibrium, clamped to `[ambient, 120]`). -/
def heat_motor (cfg : ProcessConfig) (p : PumpState) (ambient_c dt : ℚ) : PumpState :=
  let rpm_norm := clamp (if 0 < p.rpm_nom then p.rpm_actual / p.rpm_nom else 0) 0 2
  let teq := clamp (ambient_c + 70 * rpm_norm ^ 2) ambient_c 110
  let tau := max (1/20) cfg.motor_tau_heat_s
  let alpha := clamp (dt / tau) 0 1
  { p with motor_temp_c := clamp (p.motor_temp_c + (teq - p.motor_temp_c) * alpha) ambient_c 120 }

/-- `PlantProcess._cool_motor`. -/
def cool_motor (cfg : ProcessConfig) (p : PumpState) (ambient_c dt : ℚ) : PumpState :=
  let tau := max (1/20) cfg.motor_tau_cool_s
  let alpha := clamp (dt / tau) 0 1
  { p with
      motor_temp_c := clamp (p.motor_temp_c + (ambient_c - p.motor_temp_c) * alpha) ambient_c 120,
      overheat_seconds := max 0 (p.overheat_seconds - dt) }

/-- `PlantProcess._compute_in_pump_hydraulics`; `sq` stands for `math.sqrt`. -/
def compute_in_pump_hydraulics (cfg : ProcessConfig) (sq : ℚ → ℚ) (s : PlantState)
    (p : PumpState) : PumpState :=
  let rpm := p.rpm_actual
  let w := clamp (s.filter.wear_pct / 100) 0 1
  let wear_factor := 1 + cfg.gamma_wear * w ^ 2
  { p with
      pressure_bar := if 0 < rpm then cfg.in_p_clean_bar * (rpm / cfg.in_rpm_nom) ^ 2 * wear_factor else 0,
      flow_lpm := if 0 < rpm then cfg.in_q_nom_lpm * (rpm / cfg.in_rpm_nom) / sq wear_factor else 0,
      power_kw := if 0 < rpm then cfg.in_p_nom_kw * (rpm / cfg.in_rpm_nom) ^ 3 * sq wear_factor else 0 }

/-- `PlantProcess._compute_out_pump_hydraulics`. -/
def compute_out_pump_hydraulics (cfg : ProcessConfig) (p : PumpState) : PumpState :=
  let rpm := p.rpm_actual
  { p with
      pressure_bar := if 0 < rpm then cfg.out_p_clean_bar * (rpm / cfg.out_rpm_nom) ^ 2 else 0,
      flow_lpm := if 0 < rpm then cfg.out_q_nom_lpm * (rpm / cfg.out_rpm_nom) else 0,
      power_kw := if 0 < rpm then cfg.out_p_nom_kw * (rpm / cfg.out_rpm_nom) ^ 3 else 0 }

/-- `PlantProcess._update_pump` applied to one pump record `p`
(`isIn = true` for `which == "in_pump"`); returns the updated pump. -/
def update_pump (cfg : ProcessConfig) (sq : ℚ → ℚ) (s : PlantState) (p0 : PumpState)
    (isIn : Bool) (dt : ℚ) : PumpState :=
  let vf := clamp (if 0 < cfg.v_nom then s.stabilizer.vout_v / cfg.v_nom else 0) 0 (5/4)
  let p1 : PumpState := { p0 with
      voltage_v := s.stabilizer.vout_v,
      state := if s.stabilizer.mode = .FAULT then .OFF else p0.state }
  if p1.state = .OFF ∨ p1.rpm_desired ≤ 0 then
    cool_motor cfg { p1 with rpm_actual := 0, flow_lpm := 0, pressure_bar := 0, power_kw := 0 }
      s.env.ambient_temperature_c dt
  else
    let rpm_target := clamp (p1.rpm_desired * vf) 0 p1.rpm_max
    let alpha := clamp (dt / max (1/20) cfg.rpm_tau_s) 0 1
    let p2 := { p1 with
        rpm_actual := clamp (p1.rpm_actual + (rpm_target - p1.rpm_actual) * alpha) 0 p1.rpm_max }
    let p3 := if isIn then compute_in_pump_hydraulics cfg sq s p2
              else compute_out_pump_hydraulics cfg p2
    let p4 := heat_motor cfg p3 s.env.ambient_temperature_c dt
    if p4.hard_limit_c ≤ p4.motor_temp_c then
      { p4 with state := .FAULT, rpm_actual := 0, flow_lpm := 0, pressure_bar := 0, power_kw := 0 }
    else p4

/-- `PlantProcess._update_filter`. -/
def update_filter (cfg : ProcessConfig) (s : PlantState) (dt : ℚ) : PlantState :=
  let Q := if s.in_pump.state = .ON then s.in_pump.flow_lpm else 0
  let f0 := { s.filter with
      out_pressure_bar := if 0 < Q then cfg.out_pressure_bar_flowing else cfg.out_pressure_bar_no_flow,
      in_pressure_bar := if 0 < Q then s.in_pump.pressure_bar else 0 }
  let f1 := { f0 with delta_pressure_bar := max 0 (f0.in_pressure_bar - f0.out_pressure_bar) }
  match f1.mode with
  | .FILTER =>
      let f2 := if 0 < Q then
          { f1 with wear_pct := clamp (f1.wear_pct + (Q / 60) * cfg.raw_ntu_in * cfg.wear_k * dt) 0 100 }
        else f1
      let f3 := if f2.wear_pct ≤ 50 then { f2 with ntu := 1 }
        else { f2 with ntu := 1 + 2 * clamp ((f2.wear_pct - 50) / 50) 0 1 }
      { s with filter := { f3 with ph := 7 } }
  | .BACKWASH =>
      { s with filter := { f1 with
          wear_pct := max f1.min_wear_after_backwash_pct (f1.wear_pct - cfg.clean_rate_pct_per_s * dt),
          ntu := 3, ph := 7 } }
  | .IDLE => { s with filter := f1 }

/-- `PlantProcess._update_tank`. -/
def update_tank (cfg : ProcessConfig) (s : PlantState) (dt : ℚ) : PlantState :=
  let inflow_lpm := if s.filter.mode = .FILTER ∧ s.in_pump.state = .ON then s.in_pump.flow_lpm else 0
  let outflow_lpm := if s.out_pump.state = .ON then s.out_pump.flow_lpm else 0
  let backwash_lpm := if s.filter.mode = .BACKWASH then cfg.backwash_flow_lpm else 0
  let t0 := { s.tank with in_flow_lpm := inflow_lpm, out_flow_lpm := outflow_lpm + backwash_lpm }
  let t1 := { t0 with
      level_liters := clamp (t0.level_liters + (t0.in_flow_lpm - t0.out_flow_lpm) * (dt / 60))
        0 t0.capacity_liters }
  let t2 := { t1 with
      level_pct := if 0 < t1.capacity_liters then 100 * (t1.level_liters / t1.capacity_liters) else 0 }
  { s with tank := { t2 with level_rate_lps := (t2.in_flow_lpm - t2.out_flow_lpm) / 60 } }

/-- `PlantProcess.step`: the physics tick (no-op when `dt ≤ 0`). -/
def step (cfg : ProcessConfig) (sq : ℚ → ℚ) (s : PlantState) (dt : ℚ) : PlantState :=
  if dt ≤ 0 then s else
  let s1 := update_stabilizer cfg s
  let s2 := { s1 with in_pump := update_pump cfg sq s1 s1.in_pump true dt }
  let s3 := { s2 with out_pump := update_pump cfg sq s2 s2.out_pump false dt }
  let s4 := update_filter cfg s3 dt
  let s5 := update_tank cfg s4 dt
  update_stabilizer_active_power s5

end PlantProcess

/-- `ControllerConfig` from `src/nemsh/plant/controller.py`. -/
structure ControllerConfig where
  in_rpm_min : ℚ := 1000
  in_rpm_nom : ℚ := 2500
  in_rpm_max : ℚ := 4000
  in_max_rpm_below_pct : ℚ := 30
  in_nominal_until_pct : ℚ := 80
  in_min_rpm_from_pct : ℚ := 95
  in_off_at_full_pct : ℚ := 100
  in_rpm_slew_per_s : ℚ := 800
  out_rpm_min : ℚ := 1000
  out_rpm_nom : ℚ := 2500
  out_rpm_max : ℚ := 4400
  out_off_at_pct : ℚ := 5
  out_limit_at_pct : ℚ := 20
  out_rpm_slew_per_s : ℚ := 900
  out_block_level_pct : ℚ := 20
  out_block_wear_pct : ℚ := 85
  out_unblock_wear_pct : ℚ := 50
  out_block_confirm_s : ℚ := 3
  out_unblock_confirm_s : ℚ := 3
  demand_factor_min : ℚ := 7/10
  demand_factor_max : ℚ := 11/10
  demand_change_period_s : ℚ := 3600
  in_capacity_lpm_at_nom : ℚ := 120
  out_nom_flow_lpm : ℚ := 110
  backwash_min_start_wear_pct : ℚ := 20
  backwash_force_at_full_pct : ℚ := 100
  thr_a : ℚ := 85
  thr_b : ℚ := 13/20
  target_a : ℚ := 35
  target_b : ℚ := 1/4
  backwash_min_level_pct : ℚ := 30
  backwash_min_duration_s : ℚ := 10
deriving DecidableEq

/-- `ControllerConfig()` with all defaults. -/
def defaultControllerConfig : ControllerConfig := {}

/-- The mutable attributes that `PlantController.__init__` creates.  The seeded
`random.Random(seed)` is modelled by the deterministic stream `rng` (the
successive values returned by `uniform(demand_factor_min, demand_factor_max)`)
together with the index `rngIdx` of the next draw. -/
structure ControllerState where
  demand_timer_s : ℚ
  backwash_elapsed_s : ℚ
  out_blocked_by_filter : Bool
  out_block_timer_s : ℚ
  out_unblock_timer_s : ℚ
  out_demand_factor : ℚ
  rng : ℕ → ℚ
  rngIdx : ℕ

/-- The `PlantController.__init__` values (`seed` determines `rng`). -/
def initControllerState (cfg : ControllerConfig) (rng : ℕ → ℚ) : ControllerState :=
  { demand_timer_s := cfg.demand_change_period_s
    backwash_elapsed_s := 0
    out_blocked_by_filter := false
    out_block_timer_s := 0
    out_unblock_timer_s := 0
    out_demand_factor := 9/10
    rng := rng
    rngIdx := 0 }

namespace PlantController

/-- `PlantController._slew_to`. -/
def slew_to (current target slew_per_s dt : ℚ) : ℚ :=
  let max_step := absQ slew_per_s * dt
  let delta := target - current
  if absQ delta ≤ max_step then target
  else current + (if 0 < delta then max_step else -max_step)

/-- `PlantController._start_threshold_wear`. -/
def start_threshold_wear (cfg : ControllerConfig) (L : ℚ) : ℚ :=
  clamp (cfg.thr_a - cfg.thr_b * L) 20 85

/-- `PlantController._stop_target_wear`. -/
def stop_target_wear (cfg : ControllerConfig) (L : ℚ) : ℚ :=
  clamp (cfg.target_a - cfg.target_b * L) 10 35

/-- `PlantController._control_filter_mode`. -/
def control_filter_mode (cfg : ControllerConfig) (cst : ControllerState) (s : PlantState)
    (L C dt : ℚ) : ControllerState × PlantState :=
  if s.filter.mode = .BACKWASH then
    let e := cst.backwash_elapsed_s + dt
    let target := stop_target_wear cfg L
    let can_stop := cfg.backwash_min_duration_s ≤ e
    if can_stop ∧ (C ≤ target ∨ L ≤ cfg.backwash_min_level_pct) then
      ({ cst with backwash_elapsed_s := 0 },
       { s with filter := { s.filter with mode := .FILTER } })
    else
      ({ cst with backwash_elapsed_s := e }, s)
  else
    let cst1 := { cst with backwash_elapsed_s := 0 }
    let thr := start_threshold_wear cfg L
    if cfg.backwash_force_at_full_pct ≤ L ∨ max cfg.backwash_min_start_wear_pct thr ≤ C then
      (cst1, { s with filter := { s.filter with mode := .BACKWASH } })
    else
      (cst1, s)

/-- `PlantController._in_rpm_target_by_level` (`//` is float floor division,
`int(...)` truncates toward zero). -/
def in_rpm_target_by_level (cfg : ControllerConfig) (L : ℚ) : ℚ :=
  if cfg.in_off_at_full_pct ≤ L then 0
  else if L ≤ cfg.in_max_rpm_below_pct then cfg.in_rpm_max
  else if L < cfg.in_nominal_until_pct then cfg.in_rpm_nom
  else if cfg.in_min_rpm_from_pct ≤ L then cfg.in_rpm_min
  else
    let band_start := cfg.in_nominal_until_pct
    let band_end := cfg.in_min_rpm_from_pct
    let step : ℚ := 5
    let steps_count : ℤ := floorQ ((band_end - band_start) / step)
    let idx : ℤ := floorQ ((L - band_start) / step)
    let idx : ℤ := max 0 (min idx (steps_count - 1))
    let frac : ℚ := if 1 < steps_count then (idx : ℚ) / ((steps_count : ℚ) - 1) else 1
    (truncToInt (cfg.in_rpm_nom - (cfg.in_rpm_nom - cfg.in_rpm_min) * frac) : ℚ)

/-- `PlantController._control_in_pump`. -/
def control_in_pump (cfg : ControllerConfig) (s : PlantState) (L dt : ℚ) : PlantState :=
  if s.in_pump.mode ≠ .AUTO then s
  else
    let target0 := if s.filter.mode = .BACKWASH then 0 else in_rpm_target_by_level cfg L
    let target1 := clamp target0 0 s.in_pump.rpm_max
    let target2 := if target1 ≤ 0 then 0 else clamp target1 s.in_pump.rpm_min s.in_pump.rpm_max
    let d := slew_to s.in_pump.rpm_desired target2 cfg.in_rpm_slew_per_s dt
    { s with in_pump := { s.in_pump with
        rpm_desired := d,
        state := if s.in_pump.rpm_min ≤ d then .ON else .OFF } }

/-- `PlantController._update_out_demand_factor`. -/
def update_out_demand_factor (cfg : ControllerConfig) (cst : ControllerState) (dt : ℚ) :
    ControllerState :=
  let t := cst.demand_timer_s - dt
  if t ≤ 0 then
    { cst with
        out_demand_factor := cst.rng cst.rngIdx,
        rngIdx := cst.rngIdx + 1,
        demand_timer_s := cfg.demand_change_period_s + t }
  else
    { cst with demand_timer_s := t }

/-- `PlantController._control_out_pump` (block/unblock confirmation latch,
then target selection, then slew). -/
def control_out_pump (cfg : ControllerConfig) (cst : ControllerState) (s : PlantState)
    (L C dt : ℚ) : ControllerState × PlantState :=
  if s.out_pump.mode ≠ .AUTO then (cst, s)
  else
    let want_block := L < cfg.out_block_level_pct ∧ cfg.out_block_wear_pct ≤ C
    let want_unblock := C ≤ cfg.out_unblock_wear_pct
    let cst1 :=
      if ¬ cst.out_blocked_by_filter then
        if want_block then
          let t := cst.out_block_timer_s + dt
          if cfg.out_block_confirm_s ≤ t then
            { cst with out_blocked_by_filter := true, out_block_timer_s := 0 }
          else { cst with out_block_timer_s := t }
        else { cst with out_block_timer_s := 0 }
      else
        if want_unblock then
          let t := cst.out_unblock_timer_s + dt
          if cfg.out_unblock_confirm_s ≤ t then
            { cst with out_blocked_by_filter := false, out_unblock_timer_s := 0 }
          else { cst with out_unblock_timer_s := t }
        else { cst with out_unblock_timer_s := 0 }
    let target0 :=
      if L ≤ cfg.out_off_at_pct ∨ cst1.out_blocked_by_filter = true then 0
      else if L ≤ cfg.out_limit_at_pct then cfg.out_rpm_min
      else clamp (cfg.out_rpm_nom * (cfg.in_capacity_lpm_at_nom * cst1.out_demand_factor / cfg.out_nom_flow_lpm))
             cfg.out_rpm_min cfg.out_rpm_max
    let target1 := clamp target0 0 s.out_pump.rpm_max
    let target2 := if target1 ≤ 0 then 0 else clamp target1 s.out_pump.rpm_min s.out_pump.rpm_max
    let d := slew_to s.out_pump.rpm_desired target2 cfg.out_rpm_slew_per_s dt
    (cst1, { s with out_pump := { s.out_pump with
        rpm_desired := d,
        state := if s.out_pump.rpm_min ≤ d then .ON else .OFF } })

/-- `PlantController.compute`: one controller tick (no-op when `dt ≤ 0`). -/
def compute (cfg : ControllerConfig) (cst : ControllerState) (s : PlantState) (dt : ℚ) :
    ControllerState × PlantState :=
  if dt ≤ 0 then (cst, s)
  else
    let L := s.tank.level_pct
    let C := s.filter.wear_pct
    let cst1 := update_out_demand_factor cfg cst dt
    let r1 := control_filter_mode cfg cst1 s L C dt
    let s2 := control_in_pump cfg r1.2 L dt
    control_out_pump cfg r1.1 s2 L C dt

end PlantController

/-- The state a `PlantSimulator` owns: the plant state, the controller's
internal state and the fractional-seconds accumulator `_time_accum_s`. -/
structure SimState where
  state : PlantState
  ctrl : ControllerState
  time_accum_s : ℚ

/-- A `PlantSimulator(state, ...)` freshly constructed with default
controller/process components (controller seeded, stream `rng`). -/
def initSimState (ccfg : ControllerConfig) (s : PlantState) (rng : ℕ → ℚ) : SimState :=
  { state := s, ctrl := initControllerState ccfg rng, time_accum_s := 0 }

/-- `PlantSimulator.step`: controller, then physics, then the integer clock
(no-op when `dt ≤ 0`).  `int(self._time_accum_s)` truncates; the accumulator
is `≥ 1 > 0` there, so truncation is `⌊·⌋`. -/
def simStep (ccfg : ControllerConfig) (pcfg : ProcessConfig) (sq : ℚ → ℚ)
    (st : SimState) (dt : ℚ) : SimState :=
  if dt ≤ 0 then st
  else
    let r := PlantController.compute ccfg st.ctrl st.state dt
    let s2 := PlantProcess.step pcfg sq r.2 dt
    let acc := st.time_accum_s + dt
    if 1 ≤ acc then
      { state := { s2 with time_s := s2.time_s + floorQ acc }, ctrl := r.1,
        time_accum_s := acc - (floorQ acc : ℚ) }
    else
      { state := s2, ctrl := r.1, time_accum_s := acc }

/-- The states visited by a simulator stepped with a given sequence of `dt`
values: `stepTrace st [dt1, dt2, ...] = [st1, st2, ...]`. -/
def stepTrace (ccfg : ControllerConfig) (pcfg : ProcessConfig) (sq : ℚ → ℚ)
    (st : SimState) : List ℚ → List SimState
  | [] => []
  | dt :: rest =>
      let st1 := simStep ccfg pcfg sq st dt
      st1 :: stepTrace ccfg pcfg sq st1 rest

/-- Simulator states reachable (with the default configurations) from a fresh
simulator owning the default initial `PlantState`. -/
inductive Reachable (sq : ℚ → ℚ) (rng : ℕ → ℚ) : SimState → Prop where
  | init : Reachable sq rng (initSimState defaultControllerConfig initPlantState rng)
  | step (st : SimState) (dt : ℚ) : Reachable sq rng st →
      Reachable sq rng (simStep defaultControllerConfig defaultProcessConfig sq st dt)

/-- `TankProcess.step` from `src/nemsh/plant/process/tank.py` (acts only on
the tank component). -/
def tankStep (t : TankState) (dt : ℚ) : TankState :=
  if dt ≤ 0 then t
  else
    let delta_liters := (t.in_flow_lpm - t.out_flow_lpm) * (dt / 60)
    let lvl := clamp (t.level_liters + delta_liters) 0 t.capacity_liters
    let pct := if 0 < t.capacity_liters then 100 * lvl / t.capacity_liters else 0
    { t with
        level_liters := lvl,
        level_pct := clamp pct 0 100,
        level_rate_lps := (t.in_flow_lpm - t.out_flow_lpm) / 60 }

/-- `StabilizerProcess._update_stabilizer_mode` from
`src/nemsh/plant/process/stabilizer.py`: returns `(mode, output_voltage)` from
`(input_voltage, nominal_voltage)`; `GRID_FAULT_LOW = 170`,
`GRID_BYPASS_HIGH = 240`. -/
def stabilizerModeV2 (vin vnom : ℚ) : StabilizerMode × ℚ :=
  if vin < 170 then (.FAULT, 0)
  else if 240 < vin then (.BYPASS, vin)
  else (.NORMAL, vnom)

/-- A JSON value carried in the `value`/`command`/`target` fields of a control
event (`iot_sim.py`).  `jnum` covers numeric payloads; numeric strings are
parsed by `toIntOpt` below, mirroring Python's `int(value)`. -/
inductive JValue where
  | jnum (n : ℤ)
  | jstr (s : String)
  | jnull
deriving DecidableEq

/-- Python `int(value)` inside `try/except`: succeeds on numbers and numeric
strings, fails (`None`) otherwise. -/
def toIntOpt : JValue → Option ℤ
  | .jnum n => some n
  | .jstr s => s.toInt?
  | .jnull => none

/-- The audit record `self.state.last_command` built by
`PlantController._on_control` in `iot_sim.py`. -/
structure LastCommand where
  ts : String
  source : String
  command : JValue
  target : JValue
  value : JValue
  auth_ok : Bool
deriving DecidableEq

/-- A `control` event as consumed by `PlantController._on_control`
(`ev.data.get("command"/"target"/"value")`, `bool(ev.data.get("auth_ok", True))`). -/
structure ControlEvent where
  ts : String
  source : String
  command : JValue
  target : JValue
  value : JValue
  auth_ok : Bool
deriving DecidableEq

/-- `WaterPlantState` from `iot_sim.py` (the fields created in `__init__`). -/
structure WaterPlantState where
  stab_mode : String := "NORMAL"
  vin : ℚ := 230
  vout : ℚ := 230
  active_power_w : ℤ := 0
  transformer_temp_c : ℚ := 45
  pump_in_state : String := "ON"
  pump_out_state : String := "ON"
  pump_in_rpm : ℤ := 2850
  pump_out_rpm : ℤ := 2800
  pump_in_pressure_bar : ℚ := 11/5
  pump_out_pressure_bar : ℚ := 2
  pump_in_flow_lpm : ℚ := 120
  pump_out_flow_lpm : ℚ := 120
  pump_in_power_w : ℤ := 0
  pump_out_power_w : ℤ := 0
  pump_in_temp_motor_c : ℚ := 50
  pump_out_temp_motor_c : ℚ := 48
  filter_mode : String := "FILTER"
  valves_state : String := "OPEN"
  filter_wear_pct : ℚ := 12
  in_pressure_bar : ℚ := 11/5
  out_pressure_bar : ℚ := 2
  delta_pressure_bar : ℚ := 1/5
  ntu : ℚ := 3/5
  ph : ℚ := 73/10
  conductivity_us_cm : ℚ := 420
  filter_voltage_v : ℚ := 230
  filter_current_a : ℚ := 4/5
  filter_power_w : ℤ := 180
  level_pct : ℚ := 55
  min_level_pct : ℚ := 15
  max_level_pct : ℚ := 95
  tank_in_flow_lpm : ℚ := 120
  tank_out_flow_lpm : ℚ := 120
  overflow : Bool := false
  level_sensors_state : String := "OK"
  tank_valves_state : String := "OPEN"
  storage_time_s : ℚ := 0
  failed_auth : ℤ := 0
  net_burst : ℤ := 0
  last_command : Option LastCommand := none
  tick_n : ℤ := 0
deriving DecidableEq

/-- `WaterPlantState(cfg)` with the default `SimulationConfig()`. -/
def initWaterPlantState : WaterPlantState := {}

/-- The record `_on_control` stores into `last_command` for an event. -/
def lastCommandOf (ev : ControlEvent) : LastCommand :=
  { ts := ev.ts, source := ev.source, command := ev.command, target := ev.target,
    value := ev.value, auth_ok := ev.auth_ok }

/-- `PlantController._on_control` from `iot_sim.py`: records `last_command`
first, then dispatches on `(command, target)`; malformed values are dropped by
the `try/except`/`isinstance` guards. -/
def onControl (s0 : WaterPlantState) (ev : ControlEvent) : WaterPlantState :=
  let s := { s0 with last_command := some (lastCommandOf ev) }
  if ev.command = .jstr "SET_RPM" ∧ (ev.target = .jstr "pump_in" ∨ ev.target = .jstr "pump_out") then
    match toIntOpt ev.value with
    | none => s
    | some rpm =>
        let rpm := max 0 (min rpm 4000)
        if ev.target = .jstr "pump_in" then { s with pump_in_rpm := rpm }
        else { s with pump_out_rpm := rpm }
  else if ev.command = .jstr "SET_VALVE" ∧ (ev.target = .jstr "filters" ∨ ev.target = .jstr "tank") then
    match ev.value with
    | .jstr v =>
        let v := v.toUpper
        if v = "OPEN" ∨ v = "CLOSED" then
          if ev.target = .jstr "filters" then { s with valves_state := v }
          else { s with tank_valves_state := v }
        else s
    | _ => s
  else if ev.command = .jstr "SET_FILTER_MODE" then
    match ev.value with
    | .jstr v =>
        let v := v.toUpper
        if v = "FILTER" ∨ v = "BACKWASH" ∨ v = "IDLE" then { s with filter_mode := v }
        else s
    | _ => s
  else s

/-- The `(command, target, value)` combinations that `_on_control` drops
without mutating anything beyond `last_command`: an unknown
`command`/`target` pair, or a recognized pair whose `value` fails the
type/range validation of its branch. -/
def IgnoredCommand (ev : ControlEvent) : Prop :=
  (¬ (ev.command = .jstr "SET_RPM" ∧ (ev.target = .jstr "pump_in" ∨ ev.target = .jstr "pump_out")) ∧
   ¬ (ev.command = .jstr "SET_VALVE" ∧ (ev.target = .jstr "filters" ∨ ev.target = .jstr "tank")) ∧
   ev.command ≠ .jstr "SET_FILTER_MODE")
  ∨ (ev.command = .jstr "SET_RPM" ∧ (ev.target = .jstr "pump_in" ∨ ev.target = .jstr "pump_out") ∧
      toIntOpt ev.value = none)
  ∨ (ev.command = .jstr "SET_VALVE" ∧ (ev.target = .jstr "filters" ∨ ev.target = .jstr "tank") ∧
      (match ev.value with
       | .jstr v => ¬ (v.toUpper = "OPEN" ∨ v.toUpper = "CLOSED")
       | _ => True))
  ∨ (¬ (ev.command = .jstr "SET_RPM" ∧ (ev.target = .jstr "pump_in" ∨ ev.target = .jstr "pump_out")) ∧
     ¬ (ev.command = .jstr "SET_VALVE" ∧ (ev.target = .jstr "filters" ∨ ev.target = .jstr "tank")) ∧
     ev.command = .jstr "SET_FILTER_MODE" ∧
      (match ev.value with
       | .jstr v => ¬ (v.toUpper = "FILTER" ∨ v.toUpper = "BACKWASH" ∨ v.toUpper = "IDLE")
       | _ => True))

/-- A concrete stand-in for the controller's seeded `uniform` stream, used by
the witness instantiations. -/
def constRng : ℕ → ℚ := fun _ => 9/10

/-- A concrete stand-in for `math.sqrt`, used by the witness instantiations
(no verified property depends on the value of the square root). -/
def sqId : ℚ → ℚ := fun x => x

/-- An unknown command injected by an unauthenticated-looking source. -/
def evUnknown : ControlEvent :=
  { ts := "t0", source := "attacker", command := .jstr "OPEN_SESAME",
    target := .jstr "pump_in", value := .jnull, auth_ok := true }

/-- A plant state whose OUT pump is in MANUAL with an operator-set RPM. -/
def manualOutState : PlantState :=
  { initPlantState with out_pump :=
      { initPlantState.out_pump with mode := .MANUAL, state := .ON, rpm_desired := 2000 } }

/-- A controller state whose OUT-block-by-filter latch is set. -/
def latchedCtrlState : ControllerState :=
  { initControllerState defaultControllerConfig constRng with out_blocked_by_filter := true }

/-- A plant state with high filter wear (60%), used by the C4 witness. -/
def wornFilterState : PlantState :=
  { initPlantState with filter := { initPlantState.filter with wear_pct := 60 } }

/-- A tank with constant inflow 10 L/min and outflow 4 L/min, used by the C3
witness. -/
def witnessTank : TankState :=
  { capacity_liters := 1000, level_liters := 500, min_level_pct := 5, low_level_pct := 20,
    max_level_pct := 100, in_flow_lpm := 10, out_flow_lpm := 4, level_pct := 50,
    level_rate_lps := 0 }

/-- A running, almost-overheated OUT-side pump used by the C6 witness. -/
def hotPump : PumpState :=
  { mode := .AUTO, state := .ON, rpm_desired := 2500, rpm_actual := 2500, rpm_min := 1000,
    rpm_nom := 2500, rpm_max := 4000, voltage_v := 220, power_kw := 0, pressure_bar := 0,
    flow_lpm := 0, motor_temp_c := 119, overheat_limit_c := 105, hard_limit_c := 110,
    overheat_seconds := 0 }

/-- The spec's bounds invariant on a `PlantState`, together with the
structural side conditions (nonnegative `rpm_max` and capacity, ambient below
the 120 °C thermal clamp, `min_wear_after_backwash_pct` inside `[0, 100]`)
that the step functions never modify. -/
structure BoundsInv (s : PlantState) : Prop where
  level_pct_nonneg : 0 ≤ s.tank.level_pct
  level_pct_le : s.tank.level_pct ≤ 100
  wear_nonneg : 0 ≤ s.filter.wear_pct
  wear_le : s.filter.wear_pct ≤ 100
  in_rpm_nonneg : 0 ≤ s.in_pump.rpm_actual
  in_rpm_le : s.in_pump.rpm_actual ≤ s.in_pump.rpm_max
  out_rpm_nonneg : 0 ≤ s.out_pump.rpm_actual
  out_rpm_le : s.out_pump.rpm_actual ≤ s.out_pump.rpm_max
  in_temp_ge : s.env.ambient_temperature_c ≤ s.in_pump.motor_temp_c
  out_temp_ge : s.env.ambient_temperature_c ≤ s.out_pump.motor_temp_c
  ambient_le : s.env.ambient_temperature_c ≤ 120
  cap_nonneg : 0 ≤ s.tank.capacity_liters
  min_wear_nonneg : 0 ≤ s.filter.min_wear_after_backwash_pct
  min_wear_le : s.filter.min_wear_after_backwash_pct ≤ 100

/-! ## Basic lemmas about `clamp` -/

theorem clamp_le_hi (x lo hi : ℚ) (h : lo ≤ hi) : clamp x lo hi ≤ hi := by
  unfold clamp; split_ifs <;> linarith

theorem lo_le_clamp (x lo hi : ℚ) (h : lo ≤ hi) : lo ≤ clamp x lo hi := by
  unfold clamp; split_ifs <;> linarith

theorem clamp_eq_of_mem (x lo hi : ℚ) (h1 : lo ≤ x) (h2 : x ≤ hi) : clamp x lo hi = x := by
  unfold clamp; split_ifs <;> linarith

/-! ## C9: `dt ≤ 0` is a no-op -/

/-- C9: for every `PlantState`, calling `PlantSimulator.step` (and likewise
`PlantController.compute` and `PlantProcess.step`) with `dt = 0` or `dt < 0`
is a no-op: every field of the state is unchanged. -/
theorem dt_nonpos_noop (ccfg : ControllerConfig) (pcfg : ProcessConfig) (sq : ℚ → ℚ)
    (cst : ControllerState) (s : PlantState) (st : SimState) (dt : ℚ) (hdt : dt ≤ 0) :
    PlantController.compute ccfg cst s dt = (cst, s) ∧
    PlantProcess.step pcfg sq s dt = s ∧
    simStep ccfg pcfg sq st dt = st := by
  refine ⟨?_, ?_, ?_⟩
  · unfold PlantController.compute; rw [if_pos hdt]
  · unfold PlantProcess.step; rw [if_pos hdt]
  · unfold simStep; rw [if_pos hdt]

/-- Witness for C9 at `dt = 0` on the freshly constructed simulator. -/
theorem dt_nonpos_noop_witness :
    PlantController.compute defaultControllerConfig
        (initControllerState defaultControllerConfig constRng) initPlantState 0 =
      (initControllerState defaultControllerConfig constRng, initPlantState) ∧
    PlantProcess.step defaultProcessConfig sqId initPlantState 0 = initPlantState ∧
    simStep defaultControllerConfig defaultProcessConfig sqId
        (initSimState defaultControllerConfig initPlantState constRng) 0 =
      initSimState defaultControllerConfig initPlantState constRng :=
  dt_nonpos_noop defaultControllerConfig defaultProcessConfig sqId
    (initControllerState defaultControllerConfig constRng) initPlantState
    (initSimState defaultControllerConfig initPlantState constRng) 0 (le_refl 0)

/-! ## C10: determinism of the tick pipeline -/

/-- C10: the tick pipeline is deterministic — two simulators constructed from
equal initial `PlantState` with default components (controller stream from the
same seed) and stepped with the same sequence of `dt` values yield equal
states (including `time_s`) after every step. -/
theorem simulation_deterministic (sq : ℚ → ℚ) (rng : ℕ → ℚ) (s : PlantState)
    (dts : List ℚ) (st1 st2 : SimState)
    (h1 : st1 = initSimState defaultControllerConfig s rng)
    (h2 : st2 = initSimState defaultControllerConfig s rng) :
    stepTrace defaultControllerConfig defaultProcessConfig sq st1 dts =
      stepTrace defaultControllerConfig defaultProcessConfig sq st2 dts := by
  subst h1; subst h2; rfl

/-- Witness for C10: two identically-constructed simulators stepped with
`[1, 1/2]`. -/
theorem simulation_deterministic_witness :
    stepTrace defaultControllerConfig defaultProcessConfig sqId
        (initSimState defaultControllerConfig initPlantState constRng) [1, 1/2] =
      stepTrace defaultControllerConfig defaultProcessConfig sqId
        (initSimState defaultControllerConfig initPlantState constRng) [1, 1/2] :=
  simulation_deterministic sqId constRng initPlantState [1, 1/2] _ _ rfl rfl

/-! ## Frame lemmas for the controller -/

namespace PlantController

theorem slew_to_abs_le (c t r dt : ℚ) (hdt : 0 ≤ dt) :
    |slew_to c t r dt - c| ≤ |r| * dt := by
  have hrd : 0 ≤ |r| * dt := mul_nonneg (abs_nonneg r) hdt
  simp only [slew_to, absQ_eq_abs]
  split_ifs with h1 h2
  · simpa using h1
  · simpa using (abs_of_nonneg hrd).le
  · simpa using (abs_of_nonneg hrd).le

theorem control_filter_mode_state_frame (cfg : ControllerConfig) (cst : ControllerState)
    (s : PlantState) (L C dt : ℚ) :
    ((control_filter_mode cfg cst s L C dt).2).in_pump = s.in_pump ∧
    ((control_filter_mode cfg cst s L C dt).2).out_pump = s.out_pump ∧
    ((control_filter_mode cfg cst s L C dt).2).tank = s.tank ∧
    ((control_filter_mode cfg cst s L C dt).2).env = s.env ∧
    ((control_filter_mode cfg cst s L C dt).2).stabilizer = s.stabilizer ∧
    ((control_filter_mode cfg cst s L C dt).2).filter.wear_pct = s.filter.wear_pct ∧
    ((control_filter_mode cfg cst s L C dt).2).filter.min_wear_after_backwash_pct =
      s.filter.min_wear_after_backwash_pct := by
  simp only [control_filter_mode]; split_ifs <;> simp

theorem control_filter_mode_ctrl_frame (cfg : ControllerConfig) (cst : ControllerState)
    (s : PlantState) (L C dt : ℚ) :
    ((control_filter_mode cfg cst s L C dt).1).out_blocked_by_filter = cst.out_blocked_by_filter ∧
    ((control_filter_mode cfg cst s L C dt).1).out_block_timer_s = cst.out_block_timer_s ∧
    ((control_filter_mode cfg cst s L C dt).1).out_unblock_timer_s = cst.out_unblock_timer_s ∧
    ((control_filter_mode cfg cst s L C dt).1).out_demand_factor = cst.out_demand_factor := by
  simp only [control_filter_mode]; split_ifs <;> simp



theorem control_out_pump_manual (cfg : ControllerConfig) (cst : ControllerState)
    (s : PlantState) (L C dt : ℚ) (h : s.out_pump.mode ≠ .AUTO) :
    control_out_pump cfg cst s L C dt = (cst, s) := by
  unfold control_out_pump; rw [if_pos h]

theorem control_in_pump_manual (cfg : ControllerConfig) (s : PlantState) (L dt : ℚ)
    (h : s.in_pump.mode ≠ .AUTO) :
    control_in_pump cfg s L dt = s := by
  unfold control_in_pump; rw [if_pos h]

/-- Shape of an out-pump control step: either the MANUAL no-op, or the AUTO
branch, which writes some latch update into the controller state and a slewed
`rpm_desired` (toward some target `t`) into the out pump. -/
theorem control_out_pump_shape (cfg : ControllerConfig) (cst : ControllerState)
    (s : PlantState) (L C dt : ℚ) :
    control_out_pump cfg cst s L C dt = (cst, s) ∨
    ∃ cst1 t, control_out_pump cfg cst s L C dt =
      (cst1, { s with out_pump := { s.out_pump with
          rpm_desired := slew_to s.out_pump.rpm_desired t cfg.out_rpm_slew_per_s dt,
          state := if s.out_pump.rpm_min ≤ slew_to s.out_pump.rpm_desired t cfg.out_rpm_slew_per_s dt
                   then .ON else .OFF } }) := by
  unfold control_out_pump
  split
  · exact Or.inl rfl
  · exact Or.inr ⟨_, _, rfl⟩

/-- Shape of an in-pump control step: either the MANUAL no-op, or a slewed
`rpm_desired` toward some target `t`. -/
theorem control_in_pump_shape (cfg : ControllerConfig) (s : PlantState) (L dt : ℚ) :
    control_in_pump cfg s L dt = s ∨
    ∃ t, control_in_pump cfg s L dt =
      { s with in_pump := { s.in_pump with
          rpm_desired := slew_to s.in_pump.rpm_desired t cfg.in_rpm_slew_per_s dt,
          state := if s.in_pump.rpm_min ≤ slew_to s.in_pump.rpm_desired t cfg.in_rpm_slew_per_s dt
                   then .ON else .OFF } } := by
  unfold control_in_pump
  split
  · exact Or.inl rfl
  · exact Or.inr ⟨_, rfl⟩

theorem update_out_demand_factor_frame (cfg : ControllerConfig) (cst : ControllerState) (dt : ℚ) :
    (update_out_demand_factor cfg cst dt).out_blocked_by_filter = cst.out_blocked_by_filter ∧
    (update_out_demand_factor cfg cst dt).out_block_timer_s = cst.out_block_timer_s ∧
    (update_out_demand_factor cfg cst dt).out_unblock_timer_s = cst.out_unblock_timer_s := by
  simp only [update_out_demand_factor]; split_ifs <;> simp

end PlantController

/-- For `dt > 0`, `compute` is exactly the pipeline
demand-factor → filter-mode FSM → IN-pump control → OUT-pump control. -/
theorem PlantController.compute_eq (cfg : ControllerConfig) (cst : ControllerState)
    (s : PlantState) (dt : ℚ) (hdt : 0 < dt) :
    PlantController.compute cfg cst s dt =
      PlantController.control_out_pump cfg
        (PlantController.control_filter_mode cfg
          (PlantController.update_out_demand_factor cfg cst dt) s
          s.tank.level_pct s.filter.wear_pct dt).1
        (PlantController.control_in_pump cfg
          (PlantController.control_filter_mode cfg
            (PlantController.update_out_demand_factor cfg cst dt) s
            s.tank.level_pct s.filter.wear_pct dt).2
          s.tank.level_pct dt)
        s.tank.level_pct s.filter.wear_pct dt := by
  unfold PlantController.compute
  rw [if_neg (not_le.mpr hdt)]

/-! ## C2: slew-rate bound on `rpm_desired` -/

/-- C2: for every pump in AUTO mode and every tick of size `dt > 0`, one
`PlantController.compute` call changes `rpm_desired` by at most
`slew_per_second * dt`: 800 rpm/s for the IN pump and 900 rpm/s for the OUT
pump (default `ControllerConfig`), so no instantaneous RPM jumps occur. -/
theorem compute_slew_rate_bound (cst : ControllerState) (s : PlantState) (dt : ℚ)
    (hdt : 0 < dt) :
    (s.in_pump.mode = .AUTO →
      |((PlantController.compute defaultControllerConfig cst s dt).2).in_pump.rpm_desired -
        s.in_pump.rpm_desired| ≤ 800 * dt) ∧
    (s.out_pump.mode = .AUTO →
      |((PlantController.compute defaultControllerConfig cst s dt).2).out_pump.rpm_desired -
        s.out_pump.rpm_desired| ≤ 900 * dt) := by
  have hdt' : (0:ℚ) ≤ dt := le_of_lt hdt
  have h800 : (0:ℚ) ≤ 800 * dt := by positivity
  have h900 : (0:ℚ) ≤ 900 * dt := by positivity
  have e8 : |(800:ℚ)| = 800 := by norm_num
  have e9 : |(900:ℚ)| = 900 := by norm_num
  rw [PlantController.compute_eq defaultControllerConfig cst s dt hdt]
  obtain ⟨hin1, hout1, -, -, -, -, -⟩ :=
    PlantController.control_filter_mode_state_frame defaultControllerConfig
      (PlantController.update_out_demand_factor defaultControllerConfig cst dt) s
      s.tank.level_pct s.filter.wear_pct dt
  rcases PlantController.control_in_pump_shape defaultControllerConfig
      ((PlantController.control_filter_mode defaultControllerConfig
        (PlantController.update_out_demand_factor defaultControllerConfig cst dt) s
        s.tank.level_pct s.filter.wear_pct dt).2) s.tank.level_pct dt with h2 | ⟨t2, h2⟩ <;>
  rcases PlantController.control_out_pump_shape defaultControllerConfig
      ((PlantController.control_filter_mode defaultControllerConfig
        (PlantController.update_out_demand_factor defaultControllerConfig cst dt) s
        s.tank.level_pct s.filter.wear_pct dt).1)
      (PlantController.control_in_pump defaultControllerConfig
        ((PlantController.control_filter_mode defaultControllerConfig
          (PlantController.update_out_demand_factor defaultControllerConfig cst dt) s
          s.tank.level_pct s.filter.wear_pct dt).2)
        s.tank.level_pct dt) s.tank.level_pct s.filter.wear_pct dt with h3 | ⟨cst3, t3, h3⟩ <;>
  constructor <;> intro hmode <;> rw [h3] <;> simp only [h2, hin1, hout1] <;>
  first
    | simpa using h800
    | simpa using h900
    | (have hb := PlantController.slew_to_abs_le s.in_pump.rpm_desired t2
          defaultControllerConfig.in_rpm_slew_per_s dt hdt'
       have : |defaultControllerConfig.in_rpm_slew_per_s| = 800 := by norm_num [defaultControllerConfig]
       rw [this] at hb
       simpa using hb)
    | (have hb := PlantController.slew_to_abs_le s.out_pump.rpm_desired t3
          defaultControllerConfig.out_rpm_slew_per_s dt hdt'
       have : |defaultControllerConfig.out_rpm_slew_per_s| = 900 := by norm_num [defaultControllerConfig]
       rw [this] at hb
       simpa using hb)

/-- Witness for C2: the fresh simulator state, both pumps AUTO, `dt = 1`. -/
theorem compute_slew_rate_bound_witness :
    |((PlantController.compute defaultControllerConfig
        (initControllerState defaultControllerConfig constRng) initPlantState 1).2).in_pump.rpm_desired -
      initPlantState.in_pump.rpm_desired| ≤ 800 * 1 ∧
    |((PlantController.compute defaultControllerConfig
        (initControllerState defaultControllerConfig constRng) initPlantState 1).2).out_pump.rpm_desired -
      initPlantState.out_pump.rpm_desired| ≤ 900 * 1 :=
  ⟨(compute_slew_rate_bound (initControllerState defaultControllerConfig constRng)
      initPlantState 1 one_pos).1 rfl,
   (compute_slew_rate_bound (initControllerState defaultControllerConfig constRng)
      initPlantState 1 one_pos).2 rfl⟩

/-! ## C5: stabilizer mode bands -/

/-- The three-band form claimed by the spec, as implemented by the subpackage
`StabilizerProcess._update_stabilizer_mode`: below the fault threshold ⇒
FAULT/0, above the bypass threshold ⇒ BYPASS/input, else NORMAL/nominal. -/
theorem stabilizerModeV2_bands (vin vnom : ℚ) :
    (vin < 170 → stabilizerModeV2 vin vnom = (.FAULT, 0)) ∧
    (240 < vin → stabilizerModeV2 vin vnom = (.BYPASS, vin)) ∧
    (170 ≤ vin → vin ≤ 240 → stabilizerModeV2 vin vnom = (.NORMAL, vnom)) := by
  unfold stabilizerModeV2
  refine ⟨fun h => by rw [if_pos h], fun h => ?_, fun h1 h2 => ?_⟩
  · rw [if_neg (by linarith), if_pos h]
  · rw [if_neg (by linarith), if_neg (by linarith)]

/-- Counterexample to C5 as stated, for `PlantProcess._update_stabilizer` (the
physics step used by `PlantSimulator`): at `vin = 270`, which is above the
NORMAL band top (240) and above the BYPASS band top (260), the mode becomes
FAULT with output 0 — not BYPASS with output = input as the three-band claim
requires for voltages above the bypass threshold. -/
theorem stabilizer_above_bypass_band_counterexample :
    (PlantProcess.update_stabilizer defaultProcessConfig
        { initPlantState with stabilizer := { initPlantState.stabilizer with vin_v := 270 } }).stabilizer.mode = .FAULT ∧
    (PlantProcess.update_stabilizer defaultProcessConfig
        { initPlantState with stabilizer := { initPlantState.stabilizer with vin_v := 270 } }).stabilizer.vout_v = 0 ∧
    ¬ ((PlantProcess.update_stabilizer defaultProcessConfig
        { initPlantState with stabilizer := { initPlantState.stabilizer with vin_v := 270 } }).stabilizer.mode = .BYPASS) ∧
    defaultProcessConfig.normal_v_max < 270 ∧ defaultProcessConfig.bypass_v_max < 270 := by
  decide

/-- C5 amended: `PlantProcess._update_stabilizer` uses two-sided bands — `vin`
inside `[normal_v_min, normal_v_max]` ⇒ NORMAL with output = nominal; else
`vin` inside `[bypass_v_min, bypass_v_max]` ⇒ BYPASS with output = input;
otherwise (below the bypass band or above it) ⇒ FAULT with output 0.  The
invariants `mode=FAULT ⇒ output=0` and `mode=BYPASS ⇒ output=input` hold, and
the subpackage `StabilizerProcess._update_stabilizer_mode` implements exactly
the claimed three bands. -/
theorem stabilizer_band_modes (cfg : ProcessConfig) (s : PlantState) :
    (cfg.normal_v_min ≤ s.stabilizer.vin_v ∧ s.stabilizer.vin_v ≤ cfg.normal_v_max →
      (PlantProcess.update_stabilizer cfg s).stabilizer.mode = .NORMAL ∧
      (PlantProcess.update_stabilizer cfg s).stabilizer.vout_v = cfg.v_nom) ∧
    (¬ (cfg.normal_v_min ≤ s.stabilizer.vin_v ∧ s.stabilizer.vin_v ≤ cfg.normal_v_max) →
      cfg.bypass_v_min ≤ s.stabilizer.vin_v ∧ s.stabilizer.vin_v ≤ cfg.bypass_v_max →
      (PlantProcess.update_stabilizer cfg s).stabilizer.mode = .BYPASS ∧
      (PlantProcess.update_stabilizer cfg s).stabilizer.vout_v = s.stabilizer.vin_v) ∧
    (¬ (cfg.normal_v_min ≤ s.stabilizer.vin_v ∧ s.stabilizer.vin_v ≤ cfg.normal_v_max) →
      ¬ (cfg.bypass_v_min ≤ s.stabilizer.vin_v ∧ s.stabilizer.vin_v ≤ cfg.bypass_v_max) →
      (PlantProcess.update_stabilizer cfg s).stabilizer.mode = .FAULT ∧
      (PlantProcess.update_stabilizer cfg s).stabilizer.vout_v = 0) ∧
    ((PlantProcess.update_stabilizer cfg s).stabilizer.mode = .FAULT →
      (PlantProcess.update_stabilizer cfg s).stabilizer.vout_v = 0) ∧
    ((PlantProcess.update_stabilizer cfg s).stabilizer.mode = .BYPASS →
      (PlantProcess.update_stabilizer cfg s).stabilizer.vout_v = s.stabilizer.vin_v) ∧
    (∀ vin2 vnom : ℚ,
      (vin2 < 170 → stabilizerModeV2 vin2 vnom = (.FAULT, 0)) ∧
      (240 < vin2 → stabilizerModeV2 vin2 vnom = (.BYPASS, vin2)) ∧
      (170 ≤ vin2 → vin2 ≤ 240 → stabilizerModeV2 vin2 vnom = (.NORMAL, vnom))) := by
  unfold PlantProcess.update_stabilizer
  dsimp only
  split_ifs with h1 h2 <;>
    exact ⟨by simp_all, by simp_all, by simp_all, by simp_all, by simp_all,
           fun vin2 vnom => stabilizerModeV2_bands vin2 vnom⟩

/-- Witness for C5 (amended) at `vin = 200` (NORMAL band) of the default
config. -/
theorem stabilizer_band_modes_witness :
    (PlantProcess.update_stabilizer defaultProcessConfig
        { initPlantState with stabilizer := { initPlantState.stabilizer with vin_v := 200 } }).stabilizer.mode = .NORMAL ∧
    (PlantProcess.update_stabilizer defaultProcessConfig
        { initPlantState with stabilizer := { initPlantState.stabilizer with vin_v := 200 } }).stabilizer.vout_v =
      defaultProcessConfig.v_nom :=
  (stabilizer_band_modes defaultProcessConfig
      { initPlantState with stabilizer := { initPlantState.stabilizer with vin_v := 200 } }).1
    (by decide)

/-! ## C7: handling of unknown / invalid commands -/

/-- Counterexample to C7 as stated: `_on_control` stores the incoming command
into `last_command` before dispatching, so an unknown command (here
`OPEN_SESAME`) IS recorded in `last_command` even though it is otherwise
ignored. -/
theorem ignored_command_recorded_counterexample :
    initWaterPlantState.last_command = none ∧
    IgnoredCommand evUnknown ∧
    (onControl initWaterPlantState evUnknown).last_command = some (lastCommandOf evUnknown) := by
  refine ⟨rfl, Or.inl ⟨by decide, by decide, by decide⟩, ?_⟩
  decide

/-- C7 amended: for every incoming command whose command/target combination is
unknown or whose value fails type/range validation, `_on_control` performs no
state mutation except updating `last_command`, and raises no exception (the
handler is a total function); the ignored command IS recorded in
`last_command`. -/
theorem ignored_command_no_mutation (s : WaterPlantState) (ev : ControlEvent)
    (h : IgnoredCommand ev) :
    onControl s ev = { s with last_command := some (lastCommandOf ev) } := by
  unfold onControl
  rcases h with ⟨h1, h2, h3⟩ | ⟨h1, h2, h3⟩ | ⟨h1, h2, h3⟩ | ⟨h1, h2, h3, h4⟩
  · rw [if_neg h1, if_neg h2, if_neg h3]
  · rw [if_pos ⟨h1, h2⟩, h3]
  · have hA : ¬ (ev.command = JValue.jstr "SET_RPM" ∧
        (ev.target = JValue.jstr "pump_in" ∨ ev.target = JValue.jstr "pump_out")) := by
      simp [h1]
    rw [if_neg hA, if_pos ⟨h1, h2⟩]
    cases hv : ev.value with
    | jstr v =>
        simp only [hv] at h3
        simp only [if_neg h3]
    | jnum n => rfl
    | jnull => rfl
  · rw [if_neg h1, if_neg h2, if_pos h3]
    cases hv : ev.value with
    | jstr v =>
        simp only [hv] at h4
        simp only [if_neg h4]
    | jnum n => rfl
    | jnull => rfl

/-- Witness for C7 (amended): the unknown command applied to the fresh
`WaterPlantState`. -/
theorem ignored_command_no_mutation_witness :
    onControl initWaterPlantState evUnknown =
      { initWaterPlantState with last_command := some (lastCommandOf evUnknown) } :=
  ignored_command_no_mutation initWaterPlantState evUnknown
    (Or.inl ⟨by decide, by decide, by decide⟩)

/-! ## C8: MANUAL mode suppresses controller writes -/

/-- A MANUAL pump is never written by `compute`: the controller's per-pump
early return leaves the pump record (and, for the OUT pump, the latch and its
timers) untouched. -/
theorem PlantController.compute_manual_frames (cfg : ControllerConfig)
    (cst : ControllerState) (s : PlantState) (dt : ℚ) :
    (s.in_pump.mode = .MANUAL →
      ((PlantController.compute cfg cst s dt).2).in_pump = s.in_pump) ∧
    (s.out_pump.mode = .MANUAL →
      ((PlantController.compute cfg cst s dt).2).out_pump = s.out_pump ∧
      ((PlantController.compute cfg cst s dt).1).out_blocked_by_filter = cst.out_blocked_by_filter ∧
      ((PlantController.compute cfg cst s dt).1).out_block_timer_s = cst.out_block_timer_s ∧
      ((PlantController.compute cfg cst s dt).1).out_unblock_timer_s = cst.out_unblock_timer_s) := by
  by_cases hdt : dt ≤ 0
  · unfold PlantController.compute
    rw [if_pos hdt]
    exact ⟨fun _ => rfl, fun _ => ⟨rfl, rfl, rfl, rfl⟩⟩
  · have hdt' : 0 < dt := by push_neg at hdt; exact hdt
    rw [PlantController.compute_eq cfg cst s dt hdt']
    obtain ⟨hb0, hbt0, hut0⟩ := PlantController.update_out_demand_factor_frame cfg cst dt
    set cstA := PlantController.update_out_demand_factor cfg cst dt with hcstA
    obtain ⟨hin1, hout1, -, -, -, -, -⟩ :=
      PlantController.control_filter_mode_state_frame cfg cstA s
        s.tank.level_pct s.filter.wear_pct dt
    obtain ⟨hb1, hbt1, hut1, -⟩ :=
      PlantController.control_filter_mode_ctrl_frame cfg cstA s
        s.tank.level_pct s.filter.wear_pct dt
    set r1 := PlantController.control_filter_mode cfg cstA s
      s.tank.level_pct s.filter.wear_pct dt with hr1
    constructor
    · intro hm
      have hnotauto : r1.2.in_pump.mode ≠ .AUTO := by rw [hin1, hm]; decide
      rw [PlantController.control_in_pump_manual cfg r1.2 s.tank.level_pct dt hnotauto]
      rcases PlantController.control_out_pump_shape cfg r1.1 r1.2
          s.tank.level_pct s.filter.wear_pct dt with h3 | ⟨c3, t3, h3⟩ <;> rw [h3] <;> exact hin1
    · intro hm
      have hout2 : (PlantController.control_in_pump cfg r1.2 s.tank.level_pct dt).out_pump =
          s.out_pump := by
        rcases PlantController.control_in_pump_shape cfg r1.2 s.tank.level_pct dt with h2 | ⟨t2, h2⟩ <;>
          rw [h2] <;> exact hout1
      have hnotauto : (PlantController.control_in_pump cfg r1.2 s.tank.level_pct dt).out_pump.mode ≠
          .AUTO := by rw [hout2, hm]; decide
      rw [PlantController.control_out_pump_manual cfg r1.1 _ s.tank.level_pct s.filter.wear_pct dt
        hnotauto]
      exact ⟨hout2, by rw [hb1, hb0], by rw [hbt1, hbt0], by rw [hut1, hut0]⟩

/-- Counterexample to C8 as stated: with the OUT pump in MANUAL and the
OUT-block latch set, one `compute` tick (`dt = 1`) leaves the OUT pump's
`rpm_desired` and `run_state` completely untouched — the latch (which in AUTO
would force the target to 0 and slew `rpm_desired` from 2000 toward 0) is NOT
applied in MANUAL mode, contradicting the claim's "must still apply" clause. -/
theorem manual_latch_not_applied_counterexample :
    manualOutState.out_pump.mode = .MANUAL ∧
    latchedCtrlState.out_blocked_by_filter = true ∧
    ((PlantController.compute defaultControllerConfig latchedCtrlState manualOutState 1).2).out_pump.rpm_desired = 2000 ∧
    ((PlantController.compute defaultControllerConfig latchedCtrlState manualOutState 1).2).out_pump.state = .ON := by
  obtain ⟨hout, -, -, -⟩ :=
    (PlantController.compute_manual_frames defaultControllerConfig latchedCtrlState
      manualOutState 1).2 rfl
  refine ⟨rfl, rfl, by rw [hout]; rfl, by rw [hout]; rfl⟩

/-- C8 amended: when a pump's `control_mode` is MANUAL, one
`PlantController.compute` call leaves that pump's `run_state` and
`rpm_desired` (indeed the whole pump record) unchanged; for the OUT pump the
block latch and its confirmation timers are not even updated — no safety
interlock is applied in MANUAL mode. -/
theorem manual_mode_pump_unchanged (cfg : ControllerConfig) (cst : ControllerState)
    (s : PlantState) (dt : ℚ) :
    (s.in_pump.mode = .MANUAL →
      ((PlantController.compute cfg cst s dt).2).in_pump = s.in_pump) ∧
    (s.out_pump.mode = .MANUAL →
      ((PlantController.compute cfg cst s dt).2).out_pump = s.out_pump ∧
      ((PlantController.compute cfg cst s dt).1).out_blocked_by_filter = cst.out_blocked_by_filter ∧
      ((PlantController.compute cfg cst s dt).1).out_block_timer_s = cst.out_block_timer_s ∧
      ((PlantController.compute cfg cst s dt).1).out_unblock_timer_s = cst.out_unblock_timer_s) :=
  PlantController.compute_manual_frames cfg cst s dt

/-- Witness for C8 (amended): the MANUAL OUT pump with the latch set is left
untouched at `dt = 1`. -/
theorem manual_mode_pump_unchanged_witness :
    ((PlantController.compute defaultControllerConfig latchedCtrlState manualOutState 1).2).out_pump =
      manualOutState.out_pump ∧
    ((PlantController.compute defaultControllerConfig latchedCtrlState manualOutState 1).1).out_blocked_by_filter =
      latchedCtrlState.out_blocked_by_filter ∧
    ((PlantController.compute defaultControllerConfig latchedCtrlState manualOutState 1).1).out_block_timer_s =
      latchedCtrlState.out_block_timer_s ∧
    ((PlantController.compute defaultControllerConfig latchedCtrlState manualOutState 1).1).out_unblock_timer_s =
      latchedCtrlState.out_unblock_timer_s :=
  (manual_mode_pump_unchanged defaultControllerConfig latchedCtrlState manualOutState 1).2 rfl

/-! ## C4: OUT-block latch hysteresis -/

/-- Latch behaviour of one `_control_out_pump` call (AUTO mode), stated on the
controller state it returns. -/
theorem PlantController.control_out_pump_latch (cfg : ControllerConfig)
    (cst : ControllerState) (s : PlantState) (L C dt : ℚ)
    (hauto : s.out_pump.mode = .AUTO) :
    (cst.out_blocked_by_filter = false →
      (((PlantController.control_out_pump cfg cst s L C dt).1).out_blocked_by_filter = true ↔
        (L < cfg.out_block_level_pct ∧ cfg.out_block_wear_pct ≤ C) ∧
          cfg.out_block_confirm_s ≤ cst.out_block_timer_s + dt)) ∧
    (cst.out_blocked_by_filter = false →
      ¬ (L < cfg.out_block_level_pct ∧ cfg.out_block_wear_pct ≤ C) →
      ((PlantController.control_out_pump cfg cst s L C dt).1).out_blocked_by_filter = false ∧
      ((PlantController.control_out_pump cfg cst s L C dt).1).out_block_timer_s = 0) ∧
    (cst.out_blocked_by_filter = false →
      (L < cfg.out_block_level_pct ∧ cfg.out_block_wear_pct ≤ C) →
      cst.out_block_timer_s + dt < cfg.out_block_confirm_s →
      ((PlantController.control_out_pump cfg cst s L C dt).1).out_blocked_by_filter = false ∧
      ((PlantController.control_out_pump cfg cst s L C dt).1).out_block_timer_s =
        cst.out_block_timer_s + dt) ∧
    (cst.out_blocked_by_filter = true →
      cfg.out_unblock_wear_pct < C →
      ((PlantController.control_out_pump cfg cst s L C dt).1).out_blocked_by_filter = true ∧
      ((PlantController.control_out_pump cfg cst s L C dt).1).out_unblock_timer_s = 0) ∧
    (cst.out_blocked_by_filter = true →
      C ≤ cfg.out_unblock_wear_pct →
      cst.out_unblock_timer_s + dt < cfg.out_unblock_confirm_s →
      ((PlantController.control_out_pump cfg cst s L C dt).1).out_blocked_by_filter = true ∧
      ((PlantController.control_out_pump cfg cst s L C dt).1).out_unblock_timer_s =
        cst.out_unblock_timer_s + dt) ∧
    (cst.out_blocked_by_filter = true →
      (((PlantController.control_out_pump cfg cst s L C dt).1).out_blocked_by_filter = false ↔
        C ≤ cfg.out_unblock_wear_pct ∧
          cfg.out_unblock_confirm_s ≤ cst.out_unblock_timer_s + dt)) := by
  unfold PlantController.control_out_pump
  rw [if_neg (fun h => h hauto)]
  dsimp only
  split_ifs with hb hw hc hu hd <;>
    refine ⟨?_, ?_, ?_, ?_, ?_, ?_⟩ <;> intros <;> simp_all <;> try linarith

/-- C4: with `L`/`C` the tank level and filter wear read at the start of the
tick, the OUT-block latch of one `compute` call (OUT pump in AUTO, `dt > 0`)
(1) becomes set, from unset, exactly when the block condition
`L < block_level ∧ wear ≥ block_wear` holds now and the accumulated block
timer reaches the confirmation duration; (2)-(3) the block timer resets to 0
whenever the block condition is interrupted and otherwise accumulates `dt`
without setting the latch before confirmation; (4) once set, the latch stays
set whenever `wear > unblock_threshold` — independently of the tank level, so
an instant level recovery does not clear it — and the unblock timer resets to
0; (5) with `wear ≤ unblock_threshold` but confirmation not yet reached the
latch stays set while the unblock timer accumulates `dt`; (6) the latch
clears, from set, exactly when `wear ≤ unblock_threshold` holds now and the
accumulated unblock timer reaches the full unblock confirmation duration. -/
theorem out_block_latch_hysteresis (cfg : ControllerConfig) (cst : ControllerState)
    (s : PlantState) (dt : ℚ) (hdt : 0 < dt) (hauto : s.out_pump.mode = .AUTO) :
    (cst.out_blocked_by_filter = false →
      (((PlantController.compute cfg cst s dt).1).out_blocked_by_filter = true ↔
        (s.tank.level_pct < cfg.out_block_level_pct ∧ cfg.out_block_wear_pct ≤ s.filter.wear_pct) ∧
          cfg.out_block_confirm_s ≤ cst.out_block_timer_s + dt)) ∧
    (cst.out_blocked_by_filter = false →
      ¬ (s.tank.level_pct < cfg.out_block_level_pct ∧ cfg.out_block_wear_pct ≤ s.filter.wear_pct) →
      ((PlantController.compute cfg cst s dt).1).out_blocked_by_filter = false ∧
      ((PlantController.compute cfg cst s dt).1).out_block_timer_s = 0) ∧
    (cst.out_blocked_by_filter = false →
      (s.tank.level_pct < cfg.out_block_level_pct ∧ cfg.out_block_wear_pct ≤ s.filter.wear_pct) →
      cst.out_block_timer_s + dt < cfg.out_block_confirm_s →
      ((PlantController.compute cfg cst s dt).1).out_blocked_by_filter = false ∧
      ((PlantController.compute cfg cst s dt).1).out_block_timer_s =
        cst.out_block_timer_s + dt) ∧
    (cst.out_blocked_by_filter = true →
      cfg.out_unblock_wear_pct < s.filter.wear_pct →
      ((PlantController.compute cfg cst s dt).1).out_blocked_by_filter = true ∧
      ((PlantController.compute cfg cst s dt).1).out_unblock_timer_s = 0) ∧
    (cst.out_blocked_by_filter = true →
      s.filter.wear_pct ≤ cfg.out_unblock_wear_pct →
      cst.out_unblock_timer_s + dt < cfg.out_unblock_confirm_s →
      ((PlantController.compute cfg cst s dt).1).out_blocked_by_filter = true ∧
      ((PlantController.compute cfg cst s dt).1).out_unblock_timer_s =
        cst.out_unblock_timer_s + dt) ∧
    (cst.out_blocked_by_filter = true →
      (((PlantController.compute cfg cst s dt).1).out_blocked_by_filter = false ↔
        s.filter.wear_pct ≤ cfg.out_unblock_wear_pct ∧
          cfg.out_unblock_confirm_s ≤ cst.out_unblock_timer_s + dt)) := by
  rw [PlantController.compute_eq cfg cst s dt hdt]
  obtain ⟨hb0, hbt0, hut0⟩ := PlantController.update_out_demand_factor_frame cfg cst dt
  set cstA := PlantController.update_out_demand_factor cfg cst dt with hcstA
  obtain ⟨hin1, hout1, -, -, -, -, -⟩ :=
    PlantController.control_filter_mode_state_frame cfg cstA s
      s.tank.level_pct s.filter.wear_pct dt
  obtain ⟨hb1, hbt1, hut1, -⟩ :=
    PlantController.control_filter_mode_ctrl_frame cfg cstA s
      s.tank.level_pct s.filter.wear_pct dt
  set r1 := PlantController.control_filter_mode cfg cstA s
    s.tank.level_pct s.filter.wear_pct dt with hr1
  have hmode2 : (PlantController.control_in_pump cfg r1.2 s.tank.level_pct dt).out_pump.mode =
      .AUTO := by
    rcases PlantController.control_in_pump_shape cfg r1.2 s.tank.level_pct dt with h2 | ⟨t2, h2⟩ <;>
      rw [h2] <;> rw [hout1] <;> exact hauto
  have H := PlantController.control_out_pump_latch cfg r1.1
    (PlantController.control_in_pump cfg r1.2 s.tank.level_pct dt)
    s.tank.level_pct s.filter.wear_pct dt hmode2
  rw [hb1, hb0, hbt1, hbt0, hut1, hut0] at H
  exact H

/-- Witness for C4: the set latch stays set at wear 60% > unblock threshold
50%, at `dt = 1`, and its unblock timer is reset. -/
theorem out_block_latch_hysteresis_witness :
    ((PlantController.compute defaultControllerConfig latchedCtrlState wornFilterState 1).1).out_blocked_by_filter = true ∧
    ((PlantController.compute defaultControllerConfig latchedCtrlState wornFilterState 1).1).out_unblock_timer_s = 0 :=
  (out_block_latch_hysteresis defaultControllerConfig latchedCtrlState wornFilterState 1
      one_pos rfl).2.2.2.1 rfl (by decide)

/-! ## C3: tank mass balance -/

/-- For `dt > 0` one `TankProcess.step` integrates the flows and derives
`level_pct`. -/
theorem tankStep_pos (t : TankState) (dt : ℚ) (hdt : 0 < dt) :
    tankStep t dt = { t with
      level_liters := clamp (t.level_liters + (t.in_flow_lpm - t.out_flow_lpm) * (dt / 60))
        0 t.capacity_liters,
      level_pct := clamp (if 0 < t.capacity_liters then
          100 * clamp (t.level_liters + (t.in_flow_lpm - t.out_flow_lpm) * (dt / 60))
            0 t.capacity_liters / t.capacity_liters
        else 0) 0 100,
      level_rate_lps := (t.in_flow_lpm - t.out_flow_lpm) / 60 } := by
  unfold tankStep; rw [if_neg (not_le.mpr hdt)]

/-- Absorbing an already-clamped value into a further clamped addition, valid
because the added increment has a fixed sign. -/
theorem clamp_clamp_add (a d C : ℚ) (hC : 0 ≤ C)
    (h : (0 ≤ d ∧ 0 ≤ a) ∨ (d ≤ 0 ∧ a ≤ C)) :
    clamp (clamp a 0 C + d) 0 C = clamp (a + d) 0 C := by
  unfold clamp
  rcases h with ⟨h1, h2⟩ | ⟨h1, h2⟩ <;> split_ifs <;> linarith

/-- C3: with constant flows `Qin = in_flow_lpm` and `Qout = out_flow_lpm`
(`TankProcess.step` never writes the flows, so they stay at their initial
values across the ticks), after `N` ticks of size `dt > 0` the level equals
the initial level plus `(Qin − Qout)·N·dt/60` clamped to
`[0, capacity_liters]`, and after every tick
`level_pct = 100·level_liters/capacity_liters`. -/
theorem tank_mass_balance (t : TankState) (dt : ℚ) (N : ℕ) (hdt : 0 < dt)
    (hcap : 0 < t.capacity_liters) (h0 : 0 ≤ t.level_liters)
    (hC : t.level_liters ≤ t.capacity_liters) :
    ((fun u => tankStep u dt)^[N] t).level_liters =
      clamp (t.level_liters + (t.in_flow_lpm - t.out_flow_lpm) * ((N : ℚ) * dt) / 60)
        0 t.capacity_liters ∧
    ((fun u => tankStep u dt)^[N] t).in_flow_lpm = t.in_flow_lpm ∧
    ((fun u => tankStep u dt)^[N] t).out_flow_lpm = t.out_flow_lpm ∧
    ((fun u => tankStep u dt)^[N] t).capacity_liters = t.capacity_liters ∧
    (0 < N →
      ((fun u => tankStep u dt)^[N] t).level_pct =
        100 * ((fun u => tankStep u dt)^[N] t).level_liters / t.capacity_liters) := by
  induction N with
  | zero =>
      refine ⟨?_, rfl, rfl, rfl, fun h => absurd h (lt_irrefl 0)⟩
      simp only [Function.iterate_zero, id_eq, Nat.cast_zero, zero_mul, mul_zero, zero_div,
        add_zero]
      exact (clamp_eq_of_mem t.level_liters 0 t.capacity_liters h0 hC).symm
  | succ n ih =>
      obtain ⟨ihl, ihi, iho, ihc, -⟩ := ih
      rw [Function.iterate_succ_apply']
      set u := (fun u => tankStep u dt)^[n] t with hu
      rw [tankStep_pos u dt hdt]
      have hd : u.level_liters + (u.in_flow_lpm - u.out_flow_lpm) * (dt / 60) =
          clamp (t.level_liters + (t.in_flow_lpm - t.out_flow_lpm) * ((n : ℚ) * dt) / 60)
            0 t.capacity_liters + (t.in_flow_lpm - t.out_flow_lpm) * (dt / 60) := by
        rw [ihl, ihi, iho]
      have harith : t.level_liters + (t.in_flow_lpm - t.out_flow_lpm) * ((n : ℚ) * dt) / 60 +
          (t.in_flow_lpm - t.out_flow_lpm) * (dt / 60) =
          t.level_liters + (t.in_flow_lpm - t.out_flow_lpm) * (((n : ℚ) + 1) * dt) / 60 := by
        ring
      have hsign : (0 ≤ (t.in_flow_lpm - t.out_flow_lpm) * (dt / 60) ∧
            0 ≤ t.level_liters + (t.in_flow_lpm - t.out_flow_lpm) * ((n : ℚ) * dt) / 60) ∨
          ((t.in_flow_lpm - t.out_flow_lpm) * (dt / 60) ≤ 0 ∧
            t.level_liters + (t.in_flow_lpm - t.out_flow_lpm) * ((n : ℚ) * dt) / 60 ≤
              t.capacity_liters) := by
        rcases le_or_lt 0 (t.in_flow_lpm - t.out_flow_lpm) with hq | hq
        · left
          constructor
          · positivity
          · have : 0 ≤ (t.in_flow_lpm - t.out_flow_lpm) * ((n : ℚ) * dt) / 60 := by positivity
            linarith
        · right
          have hnn : (0:ℚ) ≤ (n : ℚ) * dt := by positivity
          constructor
          · have : (t.in_flow_lpm - t.out_flow_lpm) * (dt / 60) ≤ 0 := by
              apply mul_nonpos_of_nonpos_of_nonneg (le_of_lt hq)
              positivity
            linarith
          · have : (t.in_flow_lpm - t.out_flow_lpm) * ((n : ℚ) * dt) / 60 ≤ 0 := by
              apply div_nonpos_of_nonpos_of_nonneg _ (by norm_num)
              exact mul_nonpos_of_nonpos_of_nonneg (le_of_lt hq) hnn
            linarith
      have hlvl : clamp (u.level_liters + (u.in_flow_lpm - u.out_flow_lpm) * (dt / 60))
            0 u.capacity_liters =
          clamp (t.level_liters + (t.in_flow_lpm - t.out_flow_lpm) * (((n : ℚ) + 1) * dt) / 60)
            0 t.capacity_liters := by
        rw [hd, ihc, clamp_clamp_add _ _ _ (le_of_lt hcap) hsign, harith]
      have hcast : ((n + 1 : ℕ) : ℚ) = (n : ℚ) + 1 := by push_cast; ring
      refine ⟨?_, ihi, iho, ihc, fun _ => ?_⟩
      · simpa [hcast] using hlvl
      · have hcapu : 0 < u.capacity_liters := by rw [ihc]; exact hcap
        rw [if_pos hcapu]
        have hin2 : 0 ≤ clamp (u.level_liters + (u.in_flow_lpm - u.out_flow_lpm) * (dt / 60))
            0 u.capacity_liters := lo_le_clamp _ _ _ (le_of_lt hcapu)
        have hout2 : clamp (u.level_liters + (u.in_flow_lpm - u.out_flow_lpm) * (dt / 60))
            0 u.capacity_liters ≤ u.capacity_liters := clamp_le_hi _ _ _ (le_of_lt hcapu)
        rw [ihc] at hin2 hout2 ⊢
        refine clamp_eq_of_mem _ _ _ ?_ ?_
        · exact div_nonneg (mul_nonneg (by norm_num) hin2) (le_of_lt hcap)
        · rw [div_le_iff₀ hcap]
          nlinarith

/-- Witness for C3: three ticks of size 1 s on the witness tank. -/
theorem tank_mass_balance_witness :
    ((fun u => tankStep u 1)^[3] witnessTank).level_liters =
      clamp (witnessTank.level_liters +
        (witnessTank.in_flow_lpm - witnessTank.out_flow_lpm) * ((3 : ℚ) * 1) / 60)
        0 witnessTank.capacity_liters ∧
    ((fun u => tankStep u 1)^[3] witnessTank).in_flow_lpm = witnessTank.in_flow_lpm ∧
    ((fun u => tankStep u 1)^[3] witnessTank).out_flow_lpm = witnessTank.out_flow_lpm ∧
    ((fun u => tankStep u 1)^[3] witnessTank).capacity_liters = witnessTank.capacity_liters ∧
    (0 < 3 →
      ((fun u => tankStep u 1)^[3] witnessTank).level_pct =
        100 * ((fun u => tankStep u 1)^[3] witnessTank).level_liters /
          witnessTank.capacity_liters) :=
  tank_mass_balance witnessTank 1 3 one_pos (by decide) (by decide) (by decide)

/-! ## C6: overheat hard fault zeroes the pump on the same tick -/

/-- C6: if a running pump (not hard-off: stabilizer not FAULT, `run_state ≠
OFF`, `rpm_desired > 0`) ends the tick with `motor_temp_c` at or above its
`hard_limit_c`, then on that same tick `_update_pump` sets `run_state = FAULT`
and zeroes `rpm_actual`, `flow_lpm`, `pressure_bar` and `power_kw`.  The fault
is reported only through the state field: the embedding of `_update_pump` is a
total function, so no exception is raised. -/
theorem pump_overheat_fault_same_tick (cfg : ProcessConfig) (sq : ℚ → ℚ) (s : PlantState)
    (p : PumpState) (isIn : Bool) (dt : ℚ) (_hdt : 0 < dt)
    (hstab : s.stabilizer.mode ≠ .FAULT) (hstate : p.state ≠ .OFF)
    (hrpm : 0 < p.rpm_desired)
    (hT : (PlantProcess.update_pump cfg sq s p isIn dt).hard_limit_c ≤
      (PlantProcess.update_pump cfg sq s p isIn dt).motor_temp_c) :
    (PlantProcess.update_pump cfg sq s p isIn dt).state = .FAULT ∧
    (PlantProcess.update_pump cfg sq s p isIn dt).rpm_actual = 0 ∧
    (PlantProcess.update_pump cfg sq s p isIn dt).flow_lpm = 0 ∧
    (PlantProcess.update_pump cfg sq s p isIn dt).pressure_bar = 0 ∧
    (PlantProcess.update_pump cfg sq s p isIn dt).power_kw = 0 := by
  unfold PlantProcess.update_pump at hT ⊢
  rw [if_neg hstab] at hT ⊢
  dsimp only at hT ⊢
  have hcond : ¬ (p.state = PumpRunState.OFF ∨ p.rpm_desired ≤ 0) := by
    rintro (h | h)
    · exact hstate h
    · exact absurd h (not_le.mpr hrpm)
  rw [if_neg hcond] at hT ⊢
  split_ifs at hT ⊢
  all_goals first
    | exact ⟨rfl, rfl, rfl, rfl, rfl⟩
    | exact absurd hT (by assumption)

/-- Witness for C6: at `dt = 1` the hot pump stays above its 110 °C hard
limit (its temperature becomes `14251/120` °C) and is faulted with all
outputs zeroed. -/
theorem pump_overheat_fault_same_tick_witness :
    (PlantProcess.update_pump defaultProcessConfig sqId initPlantState hotPump false 1).state = .FAULT ∧
    (PlantProcess.update_pump defaultProcessConfig sqId initPlantState hotPump false 1).rpm_actual = 0 ∧
    (PlantProcess.update_pump defaultProcessConfig sqId initPlantState hotPump false 1).flow_lpm = 0 ∧
    (PlantProcess.update_pump defaultProcessConfig sqId initPlantState hotPump false 1).pressure_bar = 0 ∧
    (PlantProcess.update_pump defaultProcessConfig sqId initPlantState hotPump false 1).power_kw = 0 :=
  pump_overheat_fault_same_tick defaultProcessConfig sqId initPlantState hotPump false 1
    one_pos (by decide) (by decide) (by decide)
    (by
      have h1 : StabilizerMode.NORMAL ≠ StabilizerMode.FAULT := by decide
      have h2 : PumpRunState.ON ≠ PumpRunState.OFF := by decide
      norm_num [PlantProcess.update_pump, PlantProcess.heat_motor,
        PlantProcess.compute_out_pump_hydraulics, clamp, hotPump, initPlantState,
        defaultProcessConfig, h1, h2])

/-! ## C1: bounds invariant -/

theorem update_stabilizer_frame (cfg : ProcessConfig) (s : PlantState) :
    (PlantProcess.update_stabilizer cfg s).in_pump = s.in_pump ∧
    (PlantProcess.update_stabilizer cfg s).out_pump = s.out_pump ∧
    (PlantProcess.update_stabilizer cfg s).tank = s.tank ∧
    (PlantProcess.update_stabilizer cfg s).env = s.env ∧
    (PlantProcess.update_stabilizer cfg s).filter = s.filter := by
  unfold PlantProcess.update_stabilizer
  dsimp only
  split_ifs <;> exact ⟨rfl, rfl, rfl, rfl, rfl⟩

theorem update_stabilizer_active_power_frame (s : PlantState) :
    (PlantProcess.update_stabilizer_active_power s).in_pump = s.in_pump ∧
    (PlantProcess.update_stabilizer_active_power s).out_pump = s.out_pump ∧
    (PlantProcess.update_stabilizer_active_power s).tank = s.tank ∧
    (PlantProcess.update_stabilizer_active_power s).env = s.env ∧
    (PlantProcess.update_stabilizer_active_power s).filter = s.filter :=
  ⟨rfl, rfl, rfl, rfl, rfl⟩

/-- `_update_pump` never changes `rpm_max`. -/
theorem update_pump_rpm_max (cfg : ProcessConfig) (sq : ℚ → ℚ) (s : PlantState)
    (p : PumpState) (isIn : Bool) (dt : ℚ) :
    (PlantProcess.update_pump cfg sq s p isIn dt).rpm_max = p.rpm_max := by
  unfold PlantProcess.update_pump
  dsimp only
  split_ifs <;> rfl

/-- After `_update_pump`, `motor_temp_c ∈ [ambient, 120]` (every path ends in
`_heat_motor` or `_cool_motor`, both of which clamp to that interval). -/
theorem update_pump_temp_bounds (cfg : ProcessConfig) (sq : ℚ → ℚ) (s : PlantState)
    (p : PumpState) (isIn : Bool) (dt : ℚ)
    (hamb : s.env.ambient_temperature_c ≤ 120) :
    s.env.ambient_temperature_c ≤ (PlantProcess.update_pump cfg sq s p isIn dt).motor_temp_c ∧
    (PlantProcess.update_pump cfg sq s p isIn dt).motor_temp_c ≤ 120 := by
  unfold PlantProcess.update_pump
  dsimp only
  split_ifs <;> exact ⟨lo_le_clamp _ _ _ hamb, clamp_le_hi _ _ _ hamb⟩

/-- After `_update_pump`, `rpm_actual ∈ [0, rpm_max]`. -/
theorem update_pump_rpm_bounds (cfg : ProcessConfig) (sq : ℚ → ℚ) (s : PlantState)
    (p : PumpState) (isIn : Bool) (dt : ℚ) (hmax : 0 ≤ p.rpm_max) :
    0 ≤ (PlantProcess.update_pump cfg sq s p isIn dt).rpm_actual ∧
    (PlantProcess.update_pump cfg sq s p isIn dt).rpm_actual ≤
      (PlantProcess.update_pump cfg sq s p isIn dt).rpm_max := by
  unfold PlantProcess.update_pump
  dsimp only
  split_ifs <;>
    first
      | exact ⟨le_refl 0, hmax⟩
      | exact ⟨lo_le_clamp _ _ _ hmax, clamp_le_hi _ _ _ hmax⟩

set_option maxHeartbeats 1000000 in
/-- `_update_filter` (default config) keeps `wear_pct ∈ [0, 100]`, leaves
`min_wear_after_backwash_pct` alone and writes nothing outside the filter. -/
theorem update_filter_bounds (s : PlantState) (dt : ℚ) (hdt : 0 < dt)
    (h0 : 0 ≤ s.filter.wear_pct) (h100 : s.filter.wear_pct ≤ 100)
    (hm0 : 0 ≤ s.filter.min_wear_after_backwash_pct)
    (hm100 : s.filter.min_wear_after_backwash_pct ≤ 100) :
    (0 ≤ (PlantProcess.update_filter defaultProcessConfig s dt).filter.wear_pct ∧
      (PlantProcess.update_filter defaultProcessConfig s dt).filter.wear_pct ≤ 100) ∧
    (PlantProcess.update_filter defaultProcessConfig s dt).filter.min_wear_after_backwash_pct =
      s.filter.min_wear_after_backwash_pct ∧
    (PlantProcess.update_filter defaultProcessConfig s dt).tank = s.tank ∧
    (PlantProcess.update_filter defaultProcessConfig s dt).env = s.env ∧
    (PlantProcess.update_filter defaultProcessConfig s dt).in_pump = s.in_pump ∧
    (PlantProcess.update_filter defaultProcessConfig s dt).out_pump = s.out_pump := by
  unfold PlantProcess.update_filter
  dsimp only
  split
  · -- FILTER
    split_ifs <;>
      first
        | exact ⟨⟨h0, h100⟩, rfl, rfl, rfl, rfl, rfl⟩
        | exact ⟨⟨lo_le_clamp _ _ _ (by norm_num), clamp_le_hi _ _ _ (by norm_num)⟩,
            rfl, rfl, rfl, rfl, rfl⟩
  · -- BACKWASH
    have hrate : (0:ℚ) ≤ defaultProcessConfig.clean_rate_pct_per_s * dt := by
      have h1 : defaultProcessConfig.clean_rate_pct_per_s = 1 := rfl
      rw [h1]; linarith
    exact ⟨⟨le_max_of_le_left hm0, max_le hm100 (by linarith)⟩, rfl, rfl, rfl, rfl, rfl⟩
  · -- IDLE
    exact ⟨⟨h0, h100⟩, rfl, rfl, rfl, rfl, rfl⟩

/-- The derived percentage `100·lvl/cap` (0 when the capacity is not
positive) lies in `[0, 100]` whenever `lvl ∈ [0, cap]`. -/
theorem pct_if_bounds (lvl cap : ℚ) (hcap : 0 ≤ cap) (h0 : 0 ≤ lvl) (hl : lvl ≤ cap) :
    0 ≤ (if 0 < cap then 100 * (lvl / cap) else 0) ∧
    (if 0 < cap then 100 * (lvl / cap) else 0) ≤ 100 := by
  split_ifs with hc
  · have h1 : lvl / cap ≤ 1 := (div_le_one hc).mpr hl
    constructor
    · exact mul_nonneg (by norm_num) (div_nonneg h0 hcap)
    · linarith
  · norm_num

/-- `_update_tank` derives `level_pct ∈ [0, 100]` (capacity nonnegative) and
writes nothing outside the tank; the capacity itself is unchanged. -/
theorem update_tank_bounds (cfg : ProcessConfig) (s : PlantState) (dt : ℚ)
    (hcap : 0 ≤ s.tank.capacity_liters) :
    (0 ≤ (PlantProcess.update_tank cfg s dt).tank.level_pct ∧
      (PlantProcess.update_tank cfg s dt).tank.level_pct ≤ 100) ∧
    (PlantProcess.update_tank cfg s dt).tank.capacity_liters = s.tank.capacity_liters ∧
    (PlantProcess.update_tank cfg s dt).env = s.env ∧
    (PlantProcess.update_tank cfg s dt).in_pump = s.in_pump ∧
    (PlantProcess.update_tank cfg s dt).out_pump = s.out_pump ∧
    (PlantProcess.update_tank cfg s dt).filter = s.filter := by
  unfold PlantProcess.update_tank
  dsimp only
  exact ⟨pct_if_bounds _ _ hcap (lo_le_clamp _ _ _ hcap) (clamp_le_hi _ _ _ hcap),
    rfl, rfl, rfl, rfl, rfl⟩

/-- Transporting the bounds invariant along componentwise-equal states. -/
theorem boundsInv_of_eq {s t : PlantState} (h : BoundsInv s)
    (htank : t.tank = s.tank) (henv : t.env = s.env) (hfil : t.filter = s.filter)
    (hin : t.in_pump = s.in_pump) (hout : t.out_pump = s.out_pump) : BoundsInv t := by
  refine ⟨?_, ?_, ?_, ?_, ?_, ?_, ?_, ?_, ?_, ?_, ?_, ?_, ?_, ?_⟩
  · rw [htank]; exact h.level_pct_nonneg
  · rw [htank]; exact h.level_pct_le
  · rw [hfil]; exact h.wear_nonneg
  · rw [hfil]; exact h.wear_le
  · rw [hin]; exact h.in_rpm_nonneg
  · rw [hin]; exact h.in_rpm_le
  · rw [hout]; exact h.out_rpm_nonneg
  · rw [hout]; exact h.out_rpm_le
  · rw [henv, hin]; exact h.in_temp_ge
  · rw [henv, hout]; exact h.out_temp_ge
  · rw [henv]; exact h.ambient_le
  · rw [htank]; exact h.cap_nonneg
  · rw [hfil]; exact h.min_wear_nonneg
  · rw [hfil]; exact h.min_wear_le

/-- Transport across a filter-only update with wear kept in `[0, 100]`. -/
theorem boundsInv_of_filter_step {s t : PlantState} (h : BoundsInv s)
    (w0 : 0 ≤ t.filter.wear_pct) (w1 : t.filter.wear_pct ≤ 100)
    (hmw : t.filter.min_wear_after_backwash_pct = s.filter.min_wear_after_backwash_pct)
    (htank : t.tank = s.tank) (henv : t.env = s.env)
    (hin : t.in_pump = s.in_pump) (hout : t.out_pump = s.out_pump) : BoundsInv t := by
  refine ⟨?_, ?_, w0, w1, ?_, ?_, ?_, ?_, ?_, ?_, ?_, ?_, ?_, ?_⟩
  · rw [htank]; exact h.level_pct_nonneg
  · rw [htank]; exact h.level_pct_le
  · rw [hin]; exact h.in_rpm_nonneg
  · rw [hin]; exact h.in_rpm_le
  · rw [hout]; exact h.out_rpm_nonneg
  · rw [hout]; exact h.out_rpm_le
  · rw [henv, hin]; exact h.in_temp_ge
  · rw [henv, hout]; exact h.out_temp_ge
  · rw [henv]; exact h.ambient_le
  · rw [htank]; exact h.cap_nonneg
  · rw [hmw]; exact h.min_wear_nonneg
  · rw [hmw]; exact h.min_wear_le

/-- Transport across a tank-only update with `level_pct` kept in `[0, 100]`. -/
theorem boundsInv_of_tank_step {s t : PlantState} (h : BoundsInv s)
    (l0 : 0 ≤ t.tank.level_pct) (l1 : t.tank.level_pct ≤ 100)
    (hcap : t.tank.capacity_liters = s.tank.capacity_liters)
    (henv : t.env = s.env) (hin : t.in_pump = s.in_pump) (hout : t.out_pump = s.out_pump)
    (hfil : t.filter = s.filter) : BoundsInv t := by
  refine ⟨l0, l1, ?_, ?_, ?_, ?_, ?_, ?_, ?_, ?_, ?_, ?_, ?_, ?_⟩
  · rw [hfil]; exact h.wear_nonneg
  · rw [hfil]; exact h.wear_le
  · rw [hin]; exact h.in_rpm_nonneg
  · rw [hin]; exact h.in_rpm_le
  · rw [hout]; exact h.out_rpm_nonneg
  · rw [hout]; exact h.out_rpm_le
  · rw [henv, hin]; exact h.in_temp_ge
  · rw [henv, hout]; exact h.out_temp_ge
  · rw [henv]; exact h.ambient_le
  · rw [hcap]; exact h.cap_nonneg
  · rw [hfil]; exact h.min_wear_nonneg
  · rw [hfil]; exact h.min_wear_le

/-- The bounds invariant survives updating the IN pump record. -/
theorem boundsInv_pump_stage_in (sq : ℚ → ℚ) (s1 : PlantState) (dt : ℚ)
    (h1 : BoundsInv s1) :
    BoundsInv { s1 with
      in_pump := PlantProcess.update_pump defaultProcessConfig sq s1 s1.in_pump true dt } := by
  have hrpm := update_pump_rpm_bounds defaultProcessConfig sq s1 s1.in_pump true dt
    (le_trans h1.in_rpm_nonneg h1.in_rpm_le)
  have htmp := update_pump_temp_bounds defaultProcessConfig sq s1 s1.in_pump true dt
    h1.ambient_le
  exact ⟨h1.level_pct_nonneg, h1.level_pct_le, h1.wear_nonneg, h1.wear_le,
    hrpm.1, hrpm.2, h1.out_rpm_nonneg, h1.out_rpm_le,
    htmp.1, h1.out_temp_ge, h1.ambient_le, h1.cap_nonneg,
    h1.min_wear_nonneg, h1.min_wear_le⟩

/-- The bounds invariant survives updating the OUT pump record. -/
theorem boundsInv_pump_stage_out (sq : ℚ → ℚ) (s2 : PlantState) (dt : ℚ)
    (h2 : BoundsInv s2) :
    BoundsInv { s2 with
      out_pump := PlantProcess.update_pump defaultProcessConfig sq s2 s2.out_pump false dt } := by
  have hrpm := update_pump_rpm_bounds defaultProcessConfig sq s2 s2.out_pump false dt
    (le_trans h2.out_rpm_nonneg h2.out_rpm_le)
  have htmp := update_pump_temp_bounds defaultProcessConfig sq s2 s2.out_pump false dt
    h2.ambient_le
  exact ⟨h2.level_pct_nonneg, h2.level_pct_le, h2.wear_nonneg, h2.wear_le,
    h2.in_rpm_nonneg, h2.in_rpm_le, hrpm.1, hrpm.2,
    h2.in_temp_ge, htmp.1, h2.ambient_le, h2.cap_nonneg,
    h2.min_wear_nonneg, h2.min_wear_le⟩

/-- One physics tick (default config) preserves the bounds invariant, for any
`dt` (for `dt ≤ 0` the step is a no-op). -/
theorem step_preserves_bounds (sq : ℚ → ℚ) (s : PlantState) (dt : ℚ) (h : BoundsInv s) :
    BoundsInv (PlantProcess.step defaultProcessConfig sq s dt) := by
  unfold PlantProcess.step
  split_ifs with hdt
  · exact h
  · have hdt' : 0 < dt := not_le.mp hdt
    dsimp only
    obtain ⟨hf_in, hf_out, hf_tank, hf_env, hf_fil⟩ :=
      update_stabilizer_frame defaultProcessConfig s
    have h1 : BoundsInv (PlantProcess.update_stabilizer defaultProcessConfig s) :=
      boundsInv_of_eq h hf_tank hf_env hf_fil hf_in hf_out
    set s1 := PlantProcess.update_stabilizer defaultProcessConfig s with hs1
    have h2 := boundsInv_pump_stage_in sq s1 dt h1
    set s2 : PlantState :=
      { s1 with in_pump := PlantProcess.update_pump defaultProcessConfig sq s1 s1.in_pump true dt }
      with hs2
    have h3 := boundsInv_pump_stage_out sq s2 dt h2
    set s3 : PlantState :=
      { s2 with out_pump := PlantProcess.update_pump defaultProcessConfig sq s2 s2.out_pump false dt }
      with hs3
    obtain ⟨⟨w0, w1⟩, hmw4, ht4, he4, hi4, ho4⟩ :=
      update_filter_bounds s3 dt hdt' h3.wear_nonneg h3.wear_le
        h3.min_wear_nonneg h3.min_wear_le
    have h4 : BoundsInv (PlantProcess.update_filter defaultProcessConfig s3 dt) :=
      boundsInv_of_filter_step h3 w0 w1 hmw4 ht4 he4 hi4 ho4
    set s4 := PlantProcess.update_filter defaultProcessConfig s3 dt with hs4
    obtain ⟨⟨l0, l1⟩, hc5, he5, hi5, ho5, hfl5⟩ :=
      update_tank_bounds defaultProcessConfig s4 dt h4.cap_nonneg
    have h5 : BoundsInv (PlantProcess.update_tank defaultProcessConfig s4 dt) :=
      boundsInv_of_tank_step h4 l0 l1 hc5 he5 hi5 ho5 hfl5
    set s5 := PlantProcess.update_tank defaultProcessConfig s4 dt with hs5
    obtain ⟨hi6, ho6, ht6, he6, hfl6⟩ := update_stabilizer_active_power_frame s5
    exact boundsInv_of_eq h5 ht6 he6 hfl6 hi6 ho6

/-- The controller writes only setpoints and modes: one `compute` call never
touches any quantity in the bounds invariant. -/
theorem compute_bounds_frame (cfg : ControllerConfig) (cst : ControllerState)
    (s : PlantState) (dt : ℚ) :
    ((PlantController.compute cfg cst s dt).2).tank = s.tank ∧
    ((PlantController.compute cfg cst s dt).2).env = s.env ∧
    ((PlantController.compute cfg cst s dt).2).filter.wear_pct = s.filter.wear_pct ∧
    ((PlantController.compute cfg cst s dt).2).filter.min_wear_after_backwash_pct =
      s.filter.min_wear_after_backwash_pct ∧
    ((PlantController.compute cfg cst s dt).2).in_pump.rpm_actual = s.in_pump.rpm_actual ∧
    ((PlantController.compute cfg cst s dt).2).in_pump.rpm_max = s.in_pump.rpm_max ∧
    ((PlantController.compute cfg cst s dt).2).in_pump.motor_temp_c = s.in_pump.motor_temp_c ∧
    ((PlantController.compute cfg cst s dt).2).out_pump.rpm_actual = s.out_pump.rpm_actual ∧
    ((PlantController.compute cfg cst s dt).2).out_pump.rpm_max = s.out_pump.rpm_max ∧
    ((PlantController.compute cfg cst s dt).2).out_pump.motor_temp_c = s.out_pump.motor_temp_c := by
  by_cases hdt : dt ≤ 0
  · unfold PlantController.compute
    rw [if_pos hdt]
    exact ⟨rfl, rfl, rfl, rfl, rfl, rfl, rfl, rfl, rfl, rfl⟩
  · rw [PlantController.compute_eq cfg cst s dt (not_le.mp hdt)]
    obtain ⟨hin1, hout1, htank1, henv1, -, hwear1, hmw1⟩ :=
      PlantController.control_filter_mode_state_frame cfg
        (PlantController.update_out_demand_factor cfg cst dt) s
        s.tank.level_pct s.filter.wear_pct dt
    set r1 := PlantController.control_filter_mode cfg
      (PlantController.update_out_demand_factor cfg cst dt) s
      s.tank.level_pct s.filter.wear_pct dt with hr1
    rcases PlantController.control_in_pump_shape cfg r1.2 s.tank.level_pct dt with h2 | ⟨t2, h2⟩ <;>
      rcases PlantController.control_out_pump_shape cfg r1.1
        (PlantController.control_in_pump cfg r1.2 s.tank.level_pct dt)
        s.tank.level_pct s.filter.wear_pct dt with h3 | ⟨c3, t3, h3⟩ <;>
      rw [h3, h2] <;>
      simp [hin1, hout1, htank1, henv1, hwear1, hmw1]

/-- `compute` preserves the bounds invariant. -/
theorem boundsInv_of_compute (cfg : ControllerConfig) (cst : ControllerState)
    (s : PlantState) (dt : ℚ) (h : BoundsInv s) :
    BoundsInv ((PlantController.compute cfg cst s dt).2) := by
  obtain ⟨ht, he, hw, hmw, hia, him, hit, hoa, hom, hot⟩ := compute_bounds_frame cfg cst s dt
  refine ⟨?_, ?_, ?_, ?_, ?_, ?_, ?_, ?_, ?_, ?_, ?_, ?_, ?_, ?_⟩
  · rw [ht]; exact h.level_pct_nonneg
  · rw [ht]; exact h.level_pct_le
  · rw [hw]; exact h.wear_nonneg
  · rw [hw]; exact h.wear_le
  · rw [hia]; exact h.in_rpm_nonneg
  · rw [hia, him]; exact h.in_rpm_le
  · rw [hoa]; exact h.out_rpm_nonneg
  · rw [hoa, hom]; exact h.out_rpm_le
  · rw [he, hit]; exact h.in_temp_ge
  · rw [he, hot]; exact h.out_temp_ge
  · rw [he]; exact h.ambient_le
  · rw [ht]; exact h.cap_nonneg
  · rw [hmw]; exact h.min_wear_nonneg
  · rw [hmw]; exact h.min_wear_le

/-- One simulator tick preserves the bounds invariant (the clock bookkeeping
touches only `time_s`). -/
theorem simStep_preserves_bounds (sq : ℚ → ℚ) (st : SimState) (dt : ℚ)
    (h : BoundsInv st.state) :
    BoundsInv (simStep defaultControllerConfig defaultProcessConfig sq st dt).state := by
  unfold simStep
  dsimp only
  split_ifs with hdt hacc
  · exact h
  · exact boundsInv_of_eq
      (step_preserves_bounds sq _ dt
        (boundsInv_of_compute defaultControllerConfig st.ctrl st.state dt h))
      rfl rfl rfl rfl rfl
  · exact step_preserves_bounds sq _ dt
      (boundsInv_of_compute defaultControllerConfig st.ctrl st.state dt h)

/-- The default initial `PlantState` satisfies the bounds invariant. -/
theorem initPlantState_bounds : BoundsInv initPlantState := by
  constructor <;> decide

/-- C1: every simulator state reachable from the fresh default simulator
satisfies the bounds (`0 ≤ level_pct ≤ 100`, `0 ≤ wear_pct ≤ 100`,
`rpm_actual ∈ [0, rpm_max]` for both pumps, `motor_temp_c ≥ ambient`), and for
every `dt > 0` both one physics tick (`PlantProcess.step`) and one full
simulator tick (`simStep`) preserve them. -/
theorem reachable_bounds_invariant (sq : ℚ → ℚ) (rng : ℕ → ℚ) (st : SimState)
    (h : Reachable sq rng st) :
    BoundsInv st.state ∧
    ∀ dt : ℚ, 0 < dt →
      BoundsInv (PlantProcess.step defaultProcessConfig sq st.state dt) ∧
      BoundsInv (simStep defaultControllerConfig defaultProcessConfig sq st dt).state := by
  have hst : BoundsInv st.state := by
    induction h with
    | init => exact initPlantState_bounds
    | step st' dt' hr ih => exact simStep_preserves_bounds sq st' dt' ih
  exact ⟨hst, fun dt _ =>
    ⟨step_preserves_bounds sq st.state dt hst, simStep_preserves_bounds sq st dt hst⟩⟩

/-- Witness for C1: the fresh default simulator, stepped once with `dt = 1`. -/
theorem reachable_bounds_invariant_witness :
    BoundsInv (initSimState defaultControllerConfig initPlantState constRng).state ∧
    BoundsInv (PlantProcess.step defaultProcessConfig sqId
      (initSimState defaultControllerConfig initPlantState constRng).state 1) ∧
    BoundsInv (simStep defaultControllerConfig defaultProcessConfig sqId
      (initSimState defaultControllerConfig initPlantState constRng) 1).state :=
  ⟨(reachable_bounds_invariant sqId constRng _ Reachable.init).1,
   ((reachable_bounds_invariant sqId constRng _ Reachable.init).2 1 one_pos).1,
   ((reachable_bounds_invariant sqId constRng _ Reachable.init).2 1 one_pos).2⟩
